import Mathlib

/-!
# M3UA/SUA signalling network management (`src/xua_snm.c`)

A shallow embedding of the SNM propagation code of libosmo-sccp.

Conventions of the embedding.

* A C pointer to a configuration object is the object together with its address
  (`addr`); pointer comparison is comparison of addresses.
* `asp->inst` and `as->inst` are the one signalling instance the call is made in; it is
  passed explicitly as `s7i`.
* A `uint32_t` array is a list of the host values of its cells; the host is little-endian,
  so `htonl` and `ntohl` swap the four bytes.
* Every call into a collaborator that the code makes (a primitive of the local SCCP user,
  an encoding-specific transmit function) is recorded, with its arguments, as one
  `xua_event`; a function of the module is the list of the events it produces, in order.
  Logging is not recorded.
* An inbound handler returns `none` when its `OSMO_ASSERT` fails (the process aborts
  before any event), and `some` of its events otherwise.
-/

namespace XuaSnm

/-! ## Data model -/

/-- Modelled from the spec: the protocol variant of an endpoint, `enum osmo_ss7_asp_protocol`
(declared in `osmo_ss7.h`, which is not part of the sources at hand). The spec names the two
encodings, M3UA and SUA; the `default:` branch of each transmit switch takes every other
value (no protocol, IPA). -/
inductive osmo_ss7_asp_protocol
  | NONE
  | SUA
  | M3UA
  | IPA
  deriving DecidableEq, Repr

/-- Modelled from the spec: the role of an endpoint, `enum osmo_ss7_asp_role`: routed process
(ASP), gateway (SG) or point-to-point peer (IPSP). -/
inductive osmo_ss7_asp_role
  | ASP
  | SG
  | IPSP
  deriving DecidableEq, Repr

/-- Modelled from the spec: the liveness state of an endpoint (inactive/active, among others). -/
inductive xua_asp_state
  | DOWN
  | INACTIVE
  | ACTIVE
  deriving DecidableEq, Repr

/-- An endpoint, `struct osmo_ss7_asp`: its address, `cfg.proto`, `cfg.role` and the state
of its state machine. -/
structure osmo_ss7_asp where
  addr : Nat
  proto : osmo_ss7_asp_protocol
  role : osmo_ss7_asp_role
  state : xua_asp_state
  deriving DecidableEq, Repr

/-- An application server, `struct osmo_ss7_as`: its address, `cfg.routing_key.context`
(a `uint32_t`) and the addresses of its member endpoints (`cfg.asps[]`). -/
structure osmo_ss7_as where
  addr : Nat
  context : Fin 4294967296
  asps : List Nat
  deriving DecidableEq, Repr

/-- A signalling instance, `struct osmo_ss7_instance`: the application servers and the
endpoints in configuration order, whether a local SCCP user is attached (`s7i->sccp`
non-NULL), and the route table seen through `osmo_ss7_route_lookup` (a route exists for
the point code). -/
structure osmo_ss7_instance where
  as_list : List osmo_ss7_as
  asp_list : List osmo_ss7_asp
  sccp : Bool
  route_lookup : Nat → Bool

/-- One information element of a decoded message, `struct xua_msg_part`: its tag and its
payload bytes (`dat`, with `len = dat.length`). -/
structure xua_msg_part where
  tag : Nat
  dat : List Nat
  deriving DecidableEq, Repr

/-- A decoded message, `struct xua_msg`: its information elements in order. -/
structure xua_msg where
  parts : List xua_msg_part
  deriving DecidableEq, Repr

/-- A call made by the module into a collaborator, with the arguments of the call.
The first five are primitives of the local SCCP user, the others are the
encoding-specific transmit functions. A pointer argument that may be NULL is an `Option`. -/
inductive xua_event
  | sccp_scmg_rx_mtp_resume (pc : Nat)
  | sccp_scmg_rx_mtp_pause (pc : Nat)
  | sccp_scmg_rx_ssn_allowed (pc ssn smi : Nat)
  | sccp_scmg_rx_ssn_prohibited (pc ssn smi : Nat)
  | sccp_scmg_rx_mtp_status (dpc cause : Nat)
  | m3ua_tx_snm_available (asp : osmo_ss7_asp) (rctx : List Nat) (aff_pc : List Nat)
      (info_str : Option String) (available : Bool)
  | sua_tx_snm_available (asp : osmo_ss7_asp) (rctx : List Nat) (aff_pc : List Nat)
      (aff_ssn : Option Nat) (aff_smi : Option Nat) (info_str : Option String)
      (available : Bool)
  | m3ua_tx_dupu (asp : osmo_ss7_asp) (rctx : List Nat) (dpc user cause : Nat)
      (info_str : Option String)
  | sua_tx_dupu (asp : osmo_ss7_asp) (rctx : List Nat) (dpc user cause : Nat)
      (info_str : Option String)
  | m3ua_tx_snm_congestion (asp : osmo_ss7_asp) (rctx : List Nat) (aff_pc : List Nat)
      (concerned_dpc : Option Nat) (cong_level : Option Nat) (info_string : Option String)
  | sua_tx_snm_congestion (asp : osmo_ss7_asp) (rctx : List Nat) (aff_pc : List Nat)
      (aff_ssn : Option Nat) (cong_level : Nat) (info_string : Option String)
  deriving DecidableEq, Repr

/-- The endpoint a transmission is addressed to; `none` for a local primitive. -/
def xua_event.dest : xua_event → Option osmo_ss7_asp
  | .m3ua_tx_snm_available asp _ _ _ _ => some asp
  | .sua_tx_snm_available asp _ _ _ _ _ _ => some asp
  | .m3ua_tx_dupu asp _ _ _ _ _ => some asp
  | .sua_tx_dupu asp _ _ _ _ _ => some asp
  | .m3ua_tx_snm_congestion asp _ _ _ _ _ => some asp
  | .sua_tx_snm_congestion asp _ _ _ _ _ => some asp
  | _ => none

/-- The routing contexts a transmission carries; `none` for a local primitive. -/
def xua_event.rctx : xua_event → Option (List Nat)
  | .m3ua_tx_snm_available _ rctx _ _ _ => some rctx
  | .sua_tx_snm_available _ rctx _ _ _ _ _ => some rctx
  | .m3ua_tx_dupu _ rctx _ _ _ _ => some rctx
  | .sua_tx_dupu _ rctx _ _ _ _ => some rctx
  | .m3ua_tx_snm_congestion _ rctx _ _ _ _ => some rctx
  | .sua_tx_snm_congestion _ rctx _ _ _ _ => some rctx
  | _ => none

/-- Whether the event is a primitive of the local SCCP user. -/
def xua_event.is_sccp_ind (ev : xua_event) : Bool :=
  ev.dest.isNone

/-- Whether the event is a transmission to an endpoint. -/
def xua_event.is_tx (ev : xua_event) : Bool :=
  ev.dest.isSome

/-! ## Collaborators and constants that are not part of the file -/

/-- Swap the four bytes of a 32-bit word (the library functions `htonl` and `ntohl` on a
little-endian host). -/
def bswap32 (x : Nat) : Nat :=
  (x % 256) * 16777216 + (x / 256 % 256) * 65536 + (x / 65536 % 256) * 256
    + x / 16777216 % 256

/-- Host to network byte order on a little-endian host. -/
def htonl (x : Nat) : Nat := bswap32 x

/-- Network to host byte order on a little-endian host. -/
def ntohl (x : Nat) : Nat := bswap32 x

/-- The cells of the `uint32_t` array that aliases a payload (`(const uint32_t *) dat`,
`len / sizeof(uint32_t)` cells), as host values. -/
def u32_array : List Nat → List Nat
  | b0 :: b1 :: b2 :: b3 :: rest =>
      (b0 % 256 + (b1 % 256) * 256 + (b2 % 256) * 65536 + (b3 % 256) * 16777216)
        :: u32_array rest
  | _ => []

/-- Modelled from the spec: tag of the affected point code element, the same in M3UA and
SUA (the protocol headers are not part of the sources at hand; value of RFC 4666). -/
def M3UA_IEI_AFFECTED_PC : Nat := 0x0012
/-- Modelled from the spec: tag of the affected point code element, SUA name (RFC 3868). -/
def SUA_IEI_AFFECTED_PC : Nat := 0x0012
/-- Modelled from the spec: tag of the info string element, the same in M3UA and SUA. -/
def M3UA_IEI_INFO_STRING : Nat := 0x0004
/-- Modelled from the spec: tag of the info string element, SUA name. -/
def SUA_IEI_INFO_STRING : Nat := 0x0004
/-- Modelled from the spec: tag of the M3UA user/cause element. -/
def M3UA_IEI_USER_CAUSE : Nat := 0x0204
/-- Modelled from the spec: tag of the M3UA congestion indications element. -/
def M3UA_IEI_CONG_IND : Nat := 0x0205
/-- Modelled from the spec: tag of the M3UA concerned destination element. -/
def M3UA_IEI_CONC_DEST : Nat := 0x0206
/-- Modelled from the spec: tag of the SUA user/cause element. -/
def SUA_IEI_USER_CAUSE : Nat := 0x010C
/-- Modelled from the spec: tag of the SUA subsystem multiplicity indicator element. -/
def SUA_IEI_SMI : Nat := 0x0112
/-- Modelled from the spec: tag of the SUA subsystem number element. -/
def SUA_IEI_SSN : Nat := 0x8003
/-- Modelled from the spec: the MTP service indicator of SCCP (`protocol/mtp.h`). -/
def MTP_SI_SCCP : Nat := 3

/-- Modelled from the spec: `osmo_ss7_asp_active`, whether the endpoint is in the active
state. -/
def osmo_ss7_asp_active (asp : osmo_ss7_asp) : Bool :=
  asp.state == xua_asp_state.ACTIVE

/-- Modelled from the spec: `osmo_ss7_as_has_asp`, whether the endpoint is a member of the
application server. -/
def osmo_ss7_as_has_asp (as : osmo_ss7_as) (asp : osmo_ss7_asp) : Bool :=
  as.asps.contains asp.addr

/-- Modelled from the spec: `xua_msg_find_tag`, the first element of the message with the
given tag. -/
def xua_msg_find_tag (xua : xua_msg) (tag : Nat) : Option xua_msg_part :=
  xua.parts.find? (fun p => p.tag == tag)

/-- Modelled from the spec: `xua_msg_part_get_u32`, the first 32-bit word of an element in
host byte order (0 for an element shorter than four bytes). -/
def xua_msg_part_get_u32 (part : xua_msg_part) : Nat :=
  match u32_array part.dat with
  | w :: _ => ntohl w
  | [] => 0

/-- Modelled from the spec: `xua_msg_get_u32`, the 32-bit value of the element with the
given tag, 0 when the element is absent. -/
def xua_msg_get_u32 (xua : xua_msg) (tag : Nat) : Nat :=
  match xua_msg_find_tag xua tag with
  | some part => xua_msg_part_get_u32 part
  | none => 0

/-- Modelled from the spec: `xua_msg_get_u32p`, a pointer to the 32-bit value of the
element with the given tag, NULL when the element is absent. -/
def xua_msg_get_u32p (xua : xua_msg) (tag : Nat) : Option Nat :=
  match xua_msg_find_tag xua tag with
  | some part => some (xua_msg_part_get_u32 part)
  | none => none

/-- Modelled from the spec: `xua_msg_get_str`, the text of the element with the given
tag, NULL when the element is absent. -/
def xua_msg_get_str (xua : xua_msg) (tag : Nat) : Option String :=
  match xua_msg_find_tag xua tag with
  | some part => some (String.mk (part.dat.map Char.ofNat))
  | none => none

/-! ## The functions of `xua_snm.c` -/

/-- The loop of `get_all_rctx_for_asp` over the remaining application servers; `rctx` is
the filled part of the buffer, `count = rctx.length`. -/
def get_all_rctx_for_asp_loop (rctx_size : Nat) (asp : osmo_ss7_asp)
    (excl_as : Option osmo_ss7_as) : List osmo_ss7_as → List Nat → List Nat
  | [], rctx => rctx
  | as :: rest, rctx =>
      if some as.addr = excl_as.map (fun e => e.addr) then
        get_all_rctx_for_asp_loop rctx_size asp excl_as rest rctx
      else if !osmo_ss7_as_has_asp as asp then
        get_all_rctx_for_asp_loop rctx_size asp excl_as rest rctx
      else if as.context = 0 then
        get_all_rctx_for_asp_loop rctx_size asp excl_as rest rctx
      else if rctx.length ≥ rctx_size then
        rctx
      else
        get_all_rctx_for_asp_loop rctx_size asp excl_as rest (rctx ++ [htonl as.context.val])

/-- The function `get_all_rctx_for_asp`: the first `count` cells of the buffer `rctx` on
return (`count`, the value returned, is the length of the list). -/
def get_all_rctx_for_asp (rctx_size : Nat) (s7i : osmo_ss7_instance) (asp : osmo_ss7_asp)
    (excl_as : Option osmo_ss7_as) : List Nat :=
  get_all_rctx_for_asp_loop rctx_size asp excl_as s7i.as_list []

/-- The function `xua_tx_snm_available`. -/
def xua_tx_snm_available (asp : osmo_ss7_asp) (rctx : List Nat) (aff_pc : List Nat)
    (info_str : Option String) (available : Bool) : List xua_event :=
  match asp.proto with
  | .M3UA => [.m3ua_tx_snm_available asp rctx aff_pc info_str available]
  | .SUA => [.sua_tx_snm_available asp rctx aff_pc none none info_str available]
  | _ => []

/-- The function `xua_tx_upu`. -/
def xua_tx_upu (asp : osmo_ss7_asp) (rctx : List Nat) (dpc user cause : Nat)
    (info_str : Option String) : List xua_event :=
  match asp.proto with
  | .M3UA => [.m3ua_tx_dupu asp rctx dpc user cause info_str]
  | .SUA => [.sua_tx_dupu asp rctx dpc user cause info_str]
  | _ => []

/-- The function `xua_tx_scon`; `cong_level` points to a `uint8_t`. -/
def xua_tx_scon (asp : osmo_ss7_asp) (rctx : List Nat) (aff_pc : List Nat)
    (concerned_dpc : Option Nat) (cong_level : Option Nat) (info_string : Option String) :
    List xua_event :=
  match asp.proto with
  | .M3UA => [.m3ua_tx_snm_congestion asp rctx aff_pc concerned_dpc cong_level info_string]
  | .SUA =>
      [.sua_tx_snm_congestion asp rctx aff_pc none
        (match cong_level with
         | some l => l
         | none => 0) info_string]
  | _ => []

/-- The value `(1 << mask) - 1` stored in `uint32_t maskbits`. C defines the shift of the
32-bit `int` 1 for `mask <= 30`, where the value is `2 ^ mask - 1`; for a larger count the
model takes the count modulo 32, as the shift instruction of the host does. -/
def maskbits (mask : Nat) : Nat :=
  ((1 <<< (mask % 32)) - 1) % 4294967296

/-- The inner loop of `xua_snm_pc_available_to_sccp`:
`for (fullpc = ...; fullpc <= hi; fullpc++)` with `hi = pc | maskbits`. Since
`hi < 2 ^ 32 - 1` (see `hi_lt_uint32_max`) the increment never wraps. -/
def xua_snm_pc_available_to_sccp_loop (available : Bool) (pc hi fullpc : Nat) :
    List xua_event :=
  if fullpc ≤ hi then
    (if available then xua_event.sccp_scmg_rx_mtp_resume pc
     else xua_event.sccp_scmg_rx_mtp_pause pc)
      :: xua_snm_pc_available_to_sccp_loop available pc hi (fullpc + 1)
  else
    []
termination_by hi + 1 - fullpc

/-- The function `xua_snm_pc_available_to_sccp`. -/
def xua_snm_pc_available_to_sccp : List Nat → Bool → List xua_event
  | [], _ => []
  | w :: rest, available =>
      let _aff_pc := ntohl w
      let pc := _aff_pc &&& 0xffffff
      let mask := (_aff_pc >>> 24) % 256
      (if mask = 0 then
        (if available then [xua_event.sccp_scmg_rx_mtp_resume pc]
         else [xua_event.sccp_scmg_rx_mtp_pause pc])
      else
        xua_snm_pc_available_to_sccp_loop available pc (pc ||| maskbits mask)
          (pc &&& (0xffffffff ^^^ maskbits mask)))
        ++ xua_snm_pc_available_to_sccp rest available

/-- The loop of `xua_snm_pc_available` over the endpoints of the instance. -/
def xua_snm_pc_available_asps (s7i : osmo_ss7_instance) (as : osmo_ss7_as)
    (aff_pc : List Nat) (info_str : Option String) (available : Bool) :
    List osmo_ss7_asp → List xua_event
  | [] => []
  | asp :: rest =>
      if !osmo_ss7_asp_active asp then
        xua_snm_pc_available_asps s7i as aff_pc info_str available rest
      else if asp.role ≠ osmo_ss7_asp_role.SG then
        xua_snm_pc_available_asps s7i as aff_pc info_str available rest
      else
        let rctx := get_all_rctx_for_asp 32 s7i asp (some as)
        if rctx.length = 0 then
          xua_snm_pc_available_asps s7i as aff_pc info_str available rest
        else
          xua_tx_snm_available asp rctx aff_pc info_str available
            ++ xua_snm_pc_available_asps s7i as aff_pc info_str available rest

/-- The function `xua_snm_pc_available`. -/
def xua_snm_pc_available (s7i : osmo_ss7_instance) (as : osmo_ss7_as) (aff_pc : List Nat)
    (info_str : Option String) (available : Bool) : List xua_event :=
  (if s7i.sccp then xua_snm_pc_available_to_sccp aff_pc available else [])
    ++ xua_snm_pc_available_asps s7i as aff_pc info_str available s7i.asp_list

/-- The function `sua_snm_ssn_available_to_sccp`. -/
def sua_snm_ssn_available_to_sccp (aff_pc aff_ssn smi : Nat) (available : Bool) :
    List xua_event :=
  if available then [.sccp_scmg_rx_ssn_allowed aff_pc aff_ssn smi]
  else [.sccp_scmg_rx_ssn_prohibited aff_pc aff_ssn smi]

/-- The loop of `sua_snm_ssn_available` over the endpoints of the instance. -/
def sua_snm_ssn_available_asps (s7i : osmo_ss7_instance) (as : osmo_ss7_as)
    (aff_pc aff_ssn : Nat) (smi : Option Nat) (info_str : Option String) (available : Bool) :
    List osmo_ss7_asp → List xua_event
  | [] => []
  | asp :: rest =>
      if !osmo_ss7_asp_active asp then
        sua_snm_ssn_available_asps s7i as aff_pc aff_ssn smi info_str available rest
      else if asp.role ≠ osmo_ss7_asp_role.SG then
        sua_snm_ssn_available_asps s7i as aff_pc aff_ssn smi info_str available rest
      else if asp.proto ≠ osmo_ss7_asp_protocol.SUA then
        sua_snm_ssn_available_asps s7i as aff_pc aff_ssn smi info_str available rest
      else
        let rctx := get_all_rctx_for_asp 32 s7i asp (some as)
        if rctx.length = 0 then
          sua_snm_ssn_available_asps s7i as aff_pc aff_ssn smi info_str available rest
        else
          xua_event.sua_tx_snm_available asp rctx [aff_pc] (some aff_ssn) smi info_str
              available
            :: sua_snm_ssn_available_asps s7i as aff_pc aff_ssn smi info_str available rest

/-- The function `sua_snm_ssn_available`. -/
def sua_snm_ssn_available (s7i : osmo_ss7_instance) (as : osmo_ss7_as)
    (aff_pc aff_ssn : Nat) (smi : Option Nat) (info_str : Option String) (available : Bool) :
    List xua_event :=
  let _smi := match smi with
    | some v => v
    | none => 0
  (if s7i.sccp then sua_snm_ssn_available_to_sccp aff_pc aff_ssn _smi available else [])
    ++ sua_snm_ssn_available_asps s7i as aff_pc aff_ssn smi info_str available s7i.asp_list

/-- The loop of `xua_snm_upu` over the endpoints of the instance. -/
def xua_snm_upu_asps (s7i : osmo_ss7_instance) (as : osmo_ss7_as) (dpc user cause : Nat)
    (info_str : Option String) : List osmo_ss7_asp → List xua_event
  | [] => []
  | asp :: rest =>
      if !osmo_ss7_asp_active asp then
        xua_snm_upu_asps s7i as dpc user cause info_str rest
      else if asp.role ≠ osmo_ss7_asp_role.SG then
        xua_snm_upu_asps s7i as dpc user cause info_str rest
      else
        let rctx := get_all_rctx_for_asp 32 s7i asp (some as)
        if rctx.length = 0 then
          xua_snm_upu_asps s7i as dpc user cause info_str rest
        else
          xua_tx_upu asp rctx dpc user cause info_str
            ++ xua_snm_upu_asps s7i as dpc user cause info_str rest

/-- The function `xua_snm_upu`; `user` and `cause` are `uint16_t`. -/
def xua_snm_upu (s7i : osmo_ss7_instance) (as : osmo_ss7_as) (dpc user cause : Nat)
    (info_str : Option String) : List xua_event :=
  (if s7i.sccp && user == MTP_SI_SCCP then [xua_event.sccp_scmg_rx_mtp_status dpc cause]
   else [])
    ++ xua_snm_upu_asps s7i as dpc user cause info_str s7i.asp_list

/-- The loop of `xua_snm_scon` over the endpoints of the instance. -/
def xua_snm_scon_asps (s7i : osmo_ss7_instance) (as : osmo_ss7_as) (aff_pc : List Nat)
    (concerned_dpc : Option Nat) (cong_level : Option Nat) (info_string : Option String) :
    List osmo_ss7_asp → List xua_event
  | [] => []
  | asp :: rest =>
      if !osmo_ss7_asp_active asp then
        xua_snm_scon_asps s7i as aff_pc concerned_dpc cong_level info_string rest
      else if asp.role ≠ osmo_ss7_asp_role.SG then
        xua_snm_scon_asps s7i as aff_pc concerned_dpc cong_level info_string rest
      else
        let rctx := get_all_rctx_for_asp 32 s7i asp (some as)
        if rctx.length = 0 then
          xua_snm_scon_asps s7i as aff_pc concerned_dpc cong_level info_string rest
        else
          xua_tx_scon asp rctx aff_pc concerned_dpc cong_level info_string
            ++ xua_snm_scon_asps s7i as aff_pc concerned_dpc cong_level info_string rest

/-- The function `xua_snm_scon`; `cong_level` points to a `uint8_t`. -/
def xua_snm_scon (s7i : osmo_ss7_instance) (as : osmo_ss7_as) (aff_pc : List Nat)
    (concerned_dpc : Option Nat) (cong_level : Option Nat) (info_string : Option String) :
    List xua_event :=
  xua_snm_scon_asps s7i as aff_pc concerned_dpc cong_level info_string s7i.asp_list

/-- The loop of `xua_snm_rx_daud` over the affected point codes; `rctx` are the routing
contexts resolved before the loop. -/
def xua_snm_rx_daud_loop (s7i : osmo_ss7_instance) (asp : osmo_ss7_asp) (rctx : List Nat) :
    List Nat → List xua_event
  | [] => []
  | w :: rest =>
      let _aff_pc := ntohl w
      let pc := _aff_pc &&& 0xffffff
      let mask := (_aff_pc >>> 24) % 256
      (if mask = 0 then
        xua_tx_snm_available asp rctx [w] (some "Response to DAUD") (s7i.route_lookup pc)
      else
        [])
        ++ xua_snm_rx_daud_loop s7i asp rctx rest

/-- The function `xua_snm_rx_daud`. -/
def xua_snm_rx_daud (s7i : osmo_ss7_instance) (asp : osmo_ss7_asp) (xua : xua_msg) :
    Option (List xua_event) :=
  match xua_msg_find_tag xua M3UA_IEI_AFFECTED_PC with
  | none => none
  | some ie_aff_pc =>
      let aff_pc := u32_array ie_aff_pc.dat
      let rctx := get_all_rctx_for_asp 32 s7i asp none
      some (xua_snm_rx_daud_loop s7i asp rctx aff_pc)

/-- The function `xua_snm_rx_duna`. -/
def xua_snm_rx_duna (s7i : osmo_ss7_instance) (asp : osmo_ss7_asp) (as : osmo_ss7_as)
    (xua : xua_msg) : Option (List xua_event) :=
  let ie_ssn := xua_msg_find_tag xua SUA_IEI_SSN
  let info_str := xua_msg_get_str xua M3UA_IEI_INFO_STRING
  match xua_msg_find_tag xua M3UA_IEI_AFFECTED_PC with
  | none => none
  | some ie_aff_pc =>
      if asp.role ≠ osmo_ss7_asp_role.ASP then
        some []
      else
        match decide (asp.proto = osmo_ss7_asp_protocol.SUA), ie_ssn with
        | true, some ie_ssn =>
            let ssn := xua_msg_part_get_u32 ie_ssn
            let aff_pc := u32_array ie_aff_pc.dat
            if ie_aff_pc.dat.length / 4 ≠ 1 then
              some []
            else
              let pc := ntohl (aff_pc.headD 0) &&& 0xffffff
              some (sua_snm_ssn_available s7i as pc ssn (xua_msg_get_u32p xua SUA_IEI_SMI)
                info_str false)
        | _, _ =>
            some (xua_snm_pc_available s7i as (u32_array ie_aff_pc.dat) info_str false)

/-- The function `xua_snm_rx_dava`. -/
def xua_snm_rx_dava (s7i : osmo_ss7_instance) (asp : osmo_ss7_asp) (as : osmo_ss7_as)
    (xua : xua_msg) : Option (List xua_event) :=
  let ie_ssn := xua_msg_find_tag xua SUA_IEI_SSN
  let info_str := xua_msg_get_str xua M3UA_IEI_INFO_STRING
  match xua_msg_find_tag xua M3UA_IEI_AFFECTED_PC with
  | none => none
  | some ie_aff_pc =>
      if asp.role ≠ osmo_ss7_asp_role.ASP then
        some []
      else
        match decide (asp.proto = osmo_ss7_asp_protocol.SUA), ie_ssn with
        | true, some ie_ssn =>
            let ssn := xua_msg_part_get_u32 ie_ssn
            let aff_pc := u32_array ie_aff_pc.dat
            if ie_aff_pc.dat.length / 4 ≠ 1 then
              some []
            else
              let pc := ntohl (aff_pc.headD 0) &&& 0xffffff
              some (sua_snm_ssn_available s7i as pc ssn (xua_msg_get_u32p xua SUA_IEI_SMI)
                info_str true)
        | _, _ =>
            some (xua_snm_pc_available s7i as (u32_array ie_aff_pc.dat) info_str true)

/-- The function `xua_snm_rx_dupu`; it has no assertion. `cause` and `user` are
`uint16_t`. -/
def xua_snm_rx_dupu (s7i : osmo_ss7_instance) (asp : osmo_ss7_asp) (as : osmo_ss7_as)
    (xua : xua_msg) : List xua_event :=
  let aff_pc := xua_msg_get_u32 xua SUA_IEI_AFFECTED_PC
  let info_str := xua_msg_get_str xua SUA_IEI_INFO_STRING
  if asp.role ≠ osmo_ss7_asp_role.ASP then
    []
  else
    match (match asp.proto with
      | .M3UA => some (xua_msg_get_u32 xua M3UA_IEI_USER_CAUSE)
      | .SUA => some (xua_msg_get_u32 xua SUA_IEI_USER_CAUSE)
      | _ => none) with
    | none => []
    | some cause_user =>
        let cause := (cause_user >>> 16) % 65536
        let user := (cause_user &&& 0xffff) % 65536
        xua_snm_upu s7i as aff_pc user cause info_str

/-- The function `xua_snm_rx_scon`. The cast `(const uint8_t *) cong_level` makes the
callee read the first byte of the 32-bit host value, its low byte on the little-endian
host. -/
def xua_snm_rx_scon (s7i : osmo_ss7_instance) (_asp : osmo_ss7_asp) (as : osmo_ss7_as)
    (xua : xua_msg) : Option (List xua_event) :=
  let info_str := xua_msg_get_str xua M3UA_IEI_INFO_STRING
  let concerned_dpc := xua_msg_get_u32p xua M3UA_IEI_CONC_DEST
  let cong_level := xua_msg_get_u32p xua M3UA_IEI_CONG_IND
  match xua_msg_find_tag xua M3UA_IEI_AFFECTED_PC with
  | none => none
  | some ie_aff_pc =>
      some (xua_snm_scon s7i as (u32_array ie_aff_pc.dat) concerned_dpc
        (cong_level.map (fun l => l % 256)) info_str)

/-! ## `xua_snm_pc_available` with its memory

The embedding above gives each function as the list of its events. To speak of two calls
in a row, the function is embedded once more with the memory it works on made explicit:
the configuration it reads through `as->inst`, and the cells of its local array
`uint32_t rctx[32]`, which the function does not initialise and which therefore hold
whatever an earlier call left there. -/

/-- The memory `xua_snm_pc_available` works on: the configuration and the cells of the
local array `rctx`, by index. -/
structure snm_state where
  s7i : osmo_ss7_instance
  rctx : Nat → Nat

/-- The cells `rctx[0]` to `rctx[num_rctx - 1]`, which a callee handed `rctx` and
`num_rctx` reads. -/
def rctx_read (rctx : Nat → Nat) (num_rctx : Nat) : List Nat :=
  (List.range num_rctx).map rctx

/-- The loop of `get_all_rctx_for_asp` writing to the array it is given:
`rctx[count] = htonl(...)` followed by `count++`. The result is the array after the loop
and the count returned. -/
def get_all_rctx_for_asp_st_loop (rctx_size : Nat) (asp : osmo_ss7_asp)
    (excl_as : Option osmo_ss7_as) :
    List osmo_ss7_as → (Nat → Nat) → Nat → (Nat → Nat) × Nat
  | [], rctx, count => (rctx, count)
  | as :: rest, rctx, count =>
      if some as.addr = excl_as.map (fun e => e.addr) then
        get_all_rctx_for_asp_st_loop rctx_size asp excl_as rest rctx count
      else if !osmo_ss7_as_has_asp as asp then
        get_all_rctx_for_asp_st_loop rctx_size asp excl_as rest rctx count
      else if as.context = 0 then
        get_all_rctx_for_asp_st_loop rctx_size asp excl_as rest rctx count
      else if count ≥ rctx_size then
        (rctx, count)
      else
        get_all_rctx_for_asp_st_loop rctx_size asp excl_as rest
          (Function.update rctx count (htonl as.context.val)) (count + 1)

/-- The function `get_all_rctx_for_asp` writing to the array it is given, `count`
starting at 0. -/
def get_all_rctx_for_asp_st (rctx_size : Nat) (s7i : osmo_ss7_instance)
    (asp : osmo_ss7_asp) (excl_as : Option osmo_ss7_as) (rctx : Nat → Nat) :
    (Nat → Nat) × Nat :=
  get_all_rctx_for_asp_st_loop rctx_size asp excl_as s7i.as_list rctx 0

/-- The loop of `xua_snm_pc_available` over the endpoints, with the array `rctx` threaded
through the iterations: the events and the array after the loop. -/
def xua_snm_pc_available_asps_st (s7i : osmo_ss7_instance) (as : osmo_ss7_as)
    (aff_pc : List Nat) (info_str : Option String) (available : Bool) :
    List osmo_ss7_asp → (Nat → Nat) → List xua_event × (Nat → Nat)
  | [], rctx => ([], rctx)
  | asp :: rest, rctx =>
      if !osmo_ss7_asp_active asp then
        xua_snm_pc_available_asps_st s7i as aff_pc info_str available rest rctx
      else if asp.role ≠ osmo_ss7_asp_role.SG then
        xua_snm_pc_available_asps_st s7i as aff_pc info_str available rest rctx
      else
        let r := get_all_rctx_for_asp_st 32 s7i asp (some as) rctx
        let num_rctx := r.2
        if num_rctx = 0 then
          xua_snm_pc_available_asps_st s7i as aff_pc info_str available rest r.1
        else
          let t := xua_snm_pc_available_asps_st s7i as aff_pc info_str available rest r.1
          (xua_tx_snm_available asp (rctx_read r.1 num_rctx) aff_pc info_str available
            ++ t.1, t.2)

/-- The function `xua_snm_pc_available` as a step on its memory: the events of the call
and the memory it leaves. The source assigns to nothing but the cells of `rctx` (and to
locals it sets before reading them), so the configuration is handed on as it was
received. -/
def xua_snm_pc_available_st (st : snm_state) (as : osmo_ss7_as) (aff_pc : List Nat)
    (info_str : Option String) (available : Bool) : List xua_event × snm_state :=
  let ind := if st.s7i.sccp then xua_snm_pc_available_to_sccp aff_pc available else []
  let r := xua_snm_pc_available_asps_st st.s7i as aff_pc info_str available
    st.s7i.asp_list st.rctx
  (ind ++ r.1, ⟨st.s7i, r.2⟩)

/-- Two calls of `xua_snm_pc_available` in a row with the same arguments: the second call
runs on the memory the first one left; the events of both calls in order, and the final
memory. -/
def xua_snm_pc_available_st_twice (st : snm_state) (as : osmo_ss7_as) (aff_pc : List Nat)
    (info_str : Option String) (available : Bool) : List xua_event × snm_state :=
  let r1 := xua_snm_pc_available_st st as aff_pc info_str available
  let r2 := xua_snm_pc_available_st r1.2 as aff_pc info_str available
  (r1.1 ++ r2.1, r2.2)

/-! ## Notions used to state the claims -/

/-- An endpoint qualifies for the fan-out triggered by `as`: it is active, has the SG role
and its routing contexts resolved with `as` excluded are not empty. -/
def fanout_ok (s7i : osmo_ss7_instance) (as : osmo_ss7_as) (asp : osmo_ss7_asp) : Bool :=
  osmo_ss7_asp_active asp && decide (asp.role = osmo_ss7_asp_role.SG)
    && decide (get_all_rctx_for_asp 32 s7i asp (some as) ≠ [])

/-- The 24-bit point code of an affected point code entry, given as an array cell. -/
def aff_pc_pc (w : Nat) : Nat :=
  ntohl w % 16777216

/-- The mask of an affected point code entry, given as an array cell. -/
def aff_pc_mask (w : Nat) : Nat :=
  ntohl w / 16777216 % 256

/-- Whether the event is an MTP-PAUSE or MTP-RESUME primitive of the local user. -/
def xua_event.is_mtp_pause_resume : xua_event → Bool
  | .sccp_scmg_rx_mtp_resume _ => true
  | .sccp_scmg_rx_mtp_pause _ => true
  | _ => false

/-- The concerned destination argument of a congestion transmission; `none` when the call
has no such argument or the pointer is NULL. -/
def xua_event.concerned_dpc : xua_event → Option Nat
  | .m3ua_tx_snm_congestion _ _ _ concerned_dpc _ _ => concerned_dpc
  | _ => none

/-- The availability an event reports: MTP-RESUME, subsystem allowed and an availability
message with the flag set report available, MTP-PAUSE, subsystem prohibited and an
availability message with the flag clear report unavailable; other events report none. -/
def xua_event.availability : xua_event → Option Bool
  | .sccp_scmg_rx_mtp_resume _ => some true
  | .sccp_scmg_rx_mtp_pause _ => some false
  | .sccp_scmg_rx_ssn_allowed _ _ _ => some true
  | .sccp_scmg_rx_ssn_prohibited _ _ _ => some false
  | .m3ua_tx_snm_available _ _ _ _ available => some available
  | .sua_tx_snm_available _ _ _ _ _ _ available => some available
  | _ => none

/-- The event with its availability flipped to available: MTP-PAUSE becomes MTP-RESUME,
subsystem prohibited becomes subsystem allowed, an availability message gets the flag
set; everything else in the event is kept. -/
def xua_event.make_available : xua_event → xua_event
  | .sccp_scmg_rx_mtp_pause pc => .sccp_scmg_rx_mtp_resume pc
  | .sccp_scmg_rx_ssn_prohibited pc ssn smi => .sccp_scmg_rx_ssn_allowed pc ssn smi
  | .m3ua_tx_snm_available asp rctx aff_pc info_str _ =>
      .m3ua_tx_snm_available asp rctx aff_pc info_str true
  | .sua_tx_snm_available asp rctx aff_pc aff_ssn aff_smi info_str _ =>
      .sua_tx_snm_available asp rctx aff_pc aff_ssn aff_smi info_str true
  | ev => ev

/-! ## Configurations and messages used as concrete inputs -/

/-- Endpoint E1 of the spec scenario: active, gateway role, M3UA. -/
def scenario_E1 : osmo_ss7_asp :=
  ⟨1, .M3UA, .SG, .ACTIVE⟩

/-- Endpoint E2 of the spec scenario: active, gateway role, SUA. -/
def scenario_E2 : osmo_ss7_asp :=
  ⟨2, .SUA, .SG, .ACTIVE⟩

/-- Application server AS1 of the spec scenario: context 7, members E1 and E2. -/
def scenario_AS1 : osmo_ss7_as :=
  ⟨101, 7, [1, 2]⟩

/-- Application server AS2 of the spec scenario: context 9, member E2. -/
def scenario_AS2 : osmo_ss7_as :=
  ⟨102, 9, [2]⟩

/-- The instance of the spec scenario, with a local user attached and a route to point
code 100 only. -/
def scenario_inst : osmo_ss7_instance :=
  ⟨[scenario_AS1, scenario_AS2], [scenario_E1, scenario_E2], true, fun pc => pc == 100⟩

/-- The affected point code entry (pc = 100, mask = 0) as an array cell: the wire bytes
00 00 00 64 read by the little-endian host. -/
def scenario_aff_pc : List Nat :=
  [htonl 100]

/-- An IPA endpoint: active, gateway role. -/
def ipa_E3 : osmo_ss7_asp :=
  ⟨3, .IPA, .SG, .ACTIVE⟩

/-- An instance whose only endpoint is the IPA endpoint, member of an application server
with context 9; a local user is attached. -/
def ipa_inst : osmo_ss7_instance :=
  ⟨[scenario_AS1, ⟨103, 9, [3]⟩], [ipa_E3], true, fun pc => pc == 100⟩

/-- The affected point code entry (pc = 100, mask = 2) as an array cell. -/
def masked_aff_pc : List Nat :=
  [htonl 0x02000064]

/-- A message with the affected point codes 100 (mask 0), 100 (mask 2) and 200 (mask 0). -/
def daud_msg : xua_msg :=
  ⟨[⟨0x0012, [0, 0, 0, 100, 2, 0, 0, 100, 0, 0, 0, 200]⟩]⟩

/-- A DAUD query for the single point code 100 with mask 0. -/
def daud_single_msg : xua_msg :=
  ⟨[⟨0x0012, [0, 0, 0, 100]⟩]⟩

/-- A DUNA/DAVA/DUPU message with one affected point code (100, mask 0), a user/cause
element of each encoding and an info string. -/
def snm_msg : xua_msg :=
  ⟨[⟨0x0012, [0, 0, 0, 100]⟩, ⟨0x0204, [0, 1, 0, 3]⟩, ⟨0x010C, [0, 1, 0, 3]⟩,
    ⟨0x0004, [116, 101, 115, 116]⟩]⟩

/-- An M3UA endpoint toward which the local role is ASP (routed process). -/
def asp_role_m3ua_E5 : osmo_ss7_asp :=
  ⟨5, .M3UA, .ASP, .ACTIVE⟩

/-- A SUA endpoint toward which the local role is ASP (routed process). -/
def asp_role_sua_E6 : osmo_ss7_asp :=
  ⟨6, .SUA, .ASP, .ACTIVE⟩

/-- Application server AS3, context 11, whose members are the two endpoints toward which
the local role is ASP. -/
def rx_AS3 : osmo_ss7_as :=
  ⟨104, 11, [5, 6]⟩

/-- An instance with the endpoints and application servers of the spec scenario and, in
addition, AS3 with its two endpoints; a local user is attached. -/
def rx_inst : osmo_ss7_instance :=
  ⟨[scenario_AS1, scenario_AS2, rx_AS3],
    [scenario_E1, scenario_E2, asp_role_m3ua_E5, asp_role_sua_E6], true, fun pc => pc == 100⟩

/-- A message with a subsystem element (SSN 8) and two affected point codes, 100 and 200. -/
def ssn_two_pc_msg : xua_msg :=
  ⟨[⟨0x0012, [0, 0, 0, 100, 0, 0, 0, 200]⟩, ⟨0x8003, [0, 0, 0, 8]⟩]⟩

/-- A message with a subsystem element (SSN 8), one affected point code (100) and no
multiplicity indicator. -/
def ssn_one_pc_msg : xua_msg :=
  ⟨[⟨0x0012, [0, 0, 0, 100]⟩, ⟨0x8003, [0, 0, 0, 8]⟩]⟩

/-- An instance whose only application server has no routing context (context 0); its
member E1 therefore resolves to an empty context list. -/
def zero_ctx_inst : osmo_ss7_instance :=
  ⟨[⟨105, 0, [1]⟩], [scenario_E1], true, fun pc => pc == 100⟩

/-- An SCON message: affected point code 100, concerned destination 200, congestion
level 2 and the info string "test". -/
def scon_msg : xua_msg :=
  ⟨[⟨0x0012, [0, 0, 0, 100]⟩, ⟨0x0206, [0, 0, 0, 200]⟩, ⟨0x0205, [0, 0, 0, 2]⟩,
    ⟨0x0004, [116, 101, 115, 116]⟩]⟩

/-- The memory of the spec scenario before the first call: every cell of `rctx` holds
the stale value 0xdeadbeef. -/
def scenario_state : snm_state :=
  ⟨scenario_inst, fun _ => 0xdeadbeef⟩

/-! ## Helper lemmas -/

/-- Swapping the bytes of a 32-bit word gives 0 only for 0. -/
theorem bswap32_eq_zero (x : Nat) (hx : x < 4294967296) (h : bswap32 x = 0) : x = 0 := by
  unfold bswap32 at h
  omega

/-- The inner loop emits one primitive per value of `fullpc` from the start to `hi`, each
carrying `pc`. -/
theorem xua_snm_pc_available_to_sccp_loop_eq (available : Bool) (pc hi : Nat) :
    ∀ (n fullpc : Nat), hi + 1 - fullpc = n →
      xua_snm_pc_available_to_sccp_loop available pc hi fullpc
        = List.replicate n (if available then xua_event.sccp_scmg_rx_mtp_resume pc
            else xua_event.sccp_scmg_rx_mtp_pause pc) := by
  intro n
  induction n with
  | zero =>
      intro fullpc h
      rw [xua_snm_pc_available_to_sccp_loop]
      have : ¬ fullpc ≤ hi := by omega
      simp [this]
  | succ k ih =>
      intro fullpc h
      rw [xua_snm_pc_available_to_sccp_loop]
      have h1 : fullpc ≤ hi := by omega
      have h2 : hi + 1 - (fullpc + 1) = k := by omega
      simp [h1, ih (fullpc + 1) h2, List.replicate_succ]

/-- The loop of `get_all_rctx_for_asp` appends to the buffer the contexts of the
application servers that pass the three tests, as long as there is room. -/
theorem get_all_rctx_for_asp_loop_eq (rctx_size : Nat) (asp : osmo_ss7_asp)
    (excl_as : Option osmo_ss7_as) (l : List osmo_ss7_as) :
    ∀ rctx : List Nat,
      get_all_rctx_for_asp_loop rctx_size asp excl_as l rctx
        = rctx ++ ((l.filter (fun a =>
              decide (some a.addr ≠ excl_as.map (fun e => e.addr))
                && osmo_ss7_as_has_asp a asp && decide (a.context ≠ 0))).map
              (fun a => htonl a.context.val)).take (rctx_size - rctx.length) := by
  induction l with
  | nil => intro rctx; simp [get_all_rctx_for_asp_loop]
  | cons a rest ih =>
      intro rctx
      rw [get_all_rctx_for_asp_loop]
      by_cases h1 : some a.addr = excl_as.map (fun e => e.addr)
      · simp [h1, ih]
      · by_cases h2 : osmo_ss7_as_has_asp a asp = true
        · by_cases h3 : a.context = 0
          · simp [h1, h2, h3, ih]
          · by_cases h4 : rctx.length ≥ rctx_size
            · have h5 : rctx_size - rctx.length = 0 := by omega
              simp [h1, h2, h3, h4, h5]
            · have h5 : rctx_size - rctx.length = (rctx_size - (rctx.length + 1)) + 1 := by
                omega
              have h6 : ¬ rctx_size ≤ rctx.length := by omega
              rw [if_neg h1, if_neg (by simp [h2]), if_neg h3, if_neg h4, ih]
              rw [List.filter_cons_of_pos (by simp [h1, h2, h3]), List.map_cons, h5,
                List.take_succ_cons]
              simp
        · simp [h1, h2, ih]

/-- The routing contexts resolved for an endpoint, in closed form. -/
theorem get_all_rctx_for_asp_eq (rctx_size : Nat) (s7i : osmo_ss7_instance)
    (asp : osmo_ss7_asp) (excl_as : Option osmo_ss7_as) :
    get_all_rctx_for_asp rctx_size s7i asp excl_as
      = ((s7i.as_list.filter (fun a =>
            decide (some a.addr ≠ excl_as.map (fun e => e.addr))
              && osmo_ss7_as_has_asp a asp && decide (a.context ≠ 0))).map
            (fun a => htonl a.context.val)).take rctx_size := by
  unfold get_all_rctx_for_asp
  rw [get_all_rctx_for_asp_loop_eq]
  simp

/-- A transmission of `xua_tx_snm_available` is addressed to the endpoint given and
carries the contexts given. -/
theorem xua_tx_snm_available_mem (asp : osmo_ss7_asp) (rctx aff_pc : List Nat)
    (info_str : Option String) (available : Bool) (ev : xua_event)
    (h : ev ∈ xua_tx_snm_available asp rctx aff_pc info_str available) :
    ev.dest = some asp ∧ ev.rctx = some rctx := by
  unfold xua_tx_snm_available at h
  split at h <;> simp at h <;> subst h <;> simp [xua_event.dest, xua_event.rctx]

/-- A transmission of `xua_tx_upu` is addressed to the endpoint given and carries the
contexts given. -/
theorem xua_tx_upu_mem (asp : osmo_ss7_asp) (rctx : List Nat) (dpc user cause : Nat)
    (info_str : Option String) (ev : xua_event)
    (h : ev ∈ xua_tx_upu asp rctx dpc user cause info_str) :
    ev.dest = some asp ∧ ev.rctx = some rctx := by
  unfold xua_tx_upu at h
  split at h <;> simp at h <;> subst h <;> simp [xua_event.dest, xua_event.rctx]

/-- A transmission of `xua_tx_scon` is addressed to the endpoint given and carries the
contexts given. -/
theorem xua_tx_scon_mem (asp : osmo_ss7_asp) (rctx aff_pc : List Nat)
    (concerned_dpc cong_level : Option Nat) (info_string : Option String) (ev : xua_event)
    (h : ev ∈ xua_tx_scon asp rctx aff_pc concerned_dpc cong_level info_string) :
    ev.dest = some asp ∧ ev.rctx = some rctx := by
  unfold xua_tx_scon at h
  split at h <;> simp at h <;> subst h <;> simp [xua_event.dest, xua_event.rctx]

/-- The events of `xua_snm_pc_available_to_sccp` are MTP-PAUSE and MTP-RESUME primitives. -/
theorem xua_snm_pc_available_to_sccp_mem (available : Bool) (ev : xua_event) :
    ∀ aff_pc : List Nat, ev ∈ xua_snm_pc_available_to_sccp aff_pc available →
      ∃ pc, ev = (if available then xua_event.sccp_scmg_rx_mtp_resume pc
        else xua_event.sccp_scmg_rx_mtp_pause pc) := by
  intro aff_pc
  induction aff_pc with
  | nil => intro h; simp [xua_snm_pc_available_to_sccp] at h
  | cons w rest ih =>
      intro h
      rw [xua_snm_pc_available_to_sccp] at h
      simp only [List.mem_append] at h
      rcases h with h | h
      · split at h
        · refine ⟨ntohl w &&& 0xffffff, ?_⟩
          cases available <;> simpa using h
        · rw [xua_snm_pc_available_to_sccp_loop_eq _ _ _ _ _ rfl] at h
          exact ⟨_, (List.mem_replicate.mp h).2⟩
      · exact ih h

/-- Every event of the endpoint loop of `xua_snm_pc_available` is a transmission to a
qualifying endpoint of the list, carrying its resolved contexts. -/
theorem xua_snm_pc_available_asps_mem (s7i : osmo_ss7_instance) (as : osmo_ss7_as)
    (aff_pc : List Nat) (info_str : Option String) (available : Bool) (ev : xua_event) :
    ∀ l : List osmo_ss7_asp,
      ev ∈ xua_snm_pc_available_asps s7i as aff_pc info_str available l →
      ∃ asp ∈ l, fanout_ok s7i as asp = true ∧ ev.dest = some asp
        ∧ ev.rctx = some (get_all_rctx_for_asp 32 s7i asp (some as)) := by
  intro l
  induction l with
  | nil => intro h; simp [xua_snm_pc_available_asps] at h
  | cons asp rest ih =>
      intro h
      rw [xua_snm_pc_available_asps] at h
      have step : ev ∈ xua_snm_pc_available_asps s7i as aff_pc info_str available rest →
          ∃ a ∈ asp :: rest, fanout_ok s7i as a = true ∧ ev.dest = some a
            ∧ ev.rctx = some (get_all_rctx_for_asp 32 s7i a (some as)) := by
        intro h'
        obtain ⟨a, ha, hr⟩ := ih h'
        exact ⟨a, List.mem_cons_of_mem _ ha, hr⟩
      split at h
      · exact step h
      · split at h
        · exact step h
        · simp only at h
          split at h
          · exact step h
          · rcases List.mem_append.mp h with h | h
            · refine ⟨asp, List.mem_cons_self _ _, ?_, xua_tx_snm_available_mem _ _ _ _ _ _ h⟩
              simp_all [fanout_ok]
            · exact step h

/-- Every event of the endpoint loop of `sua_snm_ssn_available` is the SUA transmission
to a qualifying SUA endpoint of the list, carrying its resolved contexts, the point code,
the subsystem number and the multiplicity indicator given. -/
theorem sua_snm_ssn_available_asps_mem (s7i : osmo_ss7_instance) (as : osmo_ss7_as)
    (aff_pc aff_ssn : Nat) (smi : Option Nat) (info_str : Option String) (available : Bool)
    (ev : xua_event) :
    ∀ l : List osmo_ss7_asp,
      ev ∈ sua_snm_ssn_available_asps s7i as aff_pc aff_ssn smi info_str available l →
      ∃ asp ∈ l, fanout_ok s7i as asp = true ∧ asp.proto = osmo_ss7_asp_protocol.SUA
        ∧ ev = xua_event.sua_tx_snm_available asp (get_all_rctx_for_asp 32 s7i asp (some as))
            [aff_pc] (some aff_ssn) smi info_str available := by
  intro l
  induction l with
  | nil => intro h; simp [sua_snm_ssn_available_asps] at h
  | cons asp rest ih =>
      intro h
      rw [sua_snm_ssn_available_asps] at h
      have step : ev ∈ sua_snm_ssn_available_asps s7i as aff_pc aff_ssn smi info_str
            available rest →
          ∃ a ∈ asp :: rest, fanout_ok s7i as a = true ∧ a.proto = osmo_ss7_asp_protocol.SUA
            ∧ ev = xua_event.sua_tx_snm_available a (get_all_rctx_for_asp 32 s7i a (some as))
                [aff_pc] (some aff_ssn) smi info_str available := by
        intro h'
        obtain ⟨a, ha, hr⟩ := ih h'
        exact ⟨a, List.mem_cons_of_mem _ ha, hr⟩
      split at h
      · exact step h
      · split at h
        · exact step h
        · split at h
          · exact step h
          · simp only at h
            split at h
            · exact step h
            · rcases List.mem_cons.mp h with h | h
              · refine ⟨asp, List.mem_cons_self _ _, ?_, ?_, h⟩
                · simp_all [fanout_ok]
                · simp_all
              · exact step h

/-- Every event of the endpoint loop of `xua_snm_upu` is a transmission to a
qualifying endpoint of the list, carrying its resolved contexts. -/
theorem xua_snm_upu_asps_mem (s7i : osmo_ss7_instance) (as : osmo_ss7_as)
    (dpc user cause : Nat) (info_str : Option String) (ev : xua_event) :
    ∀ l : List osmo_ss7_asp,
      ev ∈ xua_snm_upu_asps s7i as dpc user cause info_str l →
      ∃ asp ∈ l, fanout_ok s7i as asp = true ∧ ev.dest = some asp
        ∧ ev.rctx = some (get_all_rctx_for_asp 32 s7i asp (some as)) := by
  intro l
  induction l with
  | nil => intro h; simp [xua_snm_upu_asps] at h
  | cons asp rest ih =>
      intro h
      rw [xua_snm_upu_asps] at h
      have step : ev ∈ xua_snm_upu_asps s7i as dpc user cause info_str rest →
          ∃ a ∈ asp :: rest, fanout_ok s7i as a = true ∧ ev.dest = some a
            ∧ ev.rctx = some (get_all_rctx_for_asp 32 s7i a (some as)) := by
        intro h'
        obtain ⟨a, ha, hr⟩ := ih h'
        exact ⟨a, List.mem_cons_of_mem _ ha, hr⟩
      split at h
      · exact step h
      · split at h
        · exact step h
        · simp only at h
          split at h
          · exact step h
          · rcases List.mem_append.mp h with h | h
            · refine ⟨asp, List.mem_cons_self _ _, ?_, xua_tx_upu_mem _ _ _ _ _ _ _ h⟩
              simp_all [fanout_ok]
            · exact step h

/-- Every event of the endpoint loop of `xua_snm_scon` is a transmission to a
qualifying endpoint of the list, carrying its resolved contexts. -/
theorem xua_snm_scon_asps_mem (s7i : osmo_ss7_instance) (as : osmo_ss7_as)
    (aff_pc : List Nat)
    (concerned_dpc cong_level : Option Nat) (info_string : Option String) (ev : xua_event) :
    ∀ l : List osmo_ss7_asp,
      ev ∈ xua_snm_scon_asps s7i as aff_pc concerned_dpc cong_level info_string l →
      ∃ asp ∈ l, fanout_ok s7i as asp = true ∧ ev.dest = some asp
        ∧ ev.rctx = some (get_all_rctx_for_asp 32 s7i asp (some as)) := by
  intro l
  induction l with
  | nil => intro h; simp [xua_snm_scon_asps] at h
  | cons asp rest ih =>
      intro h
      rw [xua_snm_scon_asps] at h
      have step : ev ∈ xua_snm_scon_asps s7i as aff_pc concerned_dpc cong_level info_string rest →
          ∃ a ∈ asp :: rest, fanout_ok s7i as a = true ∧ ev.dest = some a
            ∧ ev.rctx = some (get_all_rctx_for_asp 32 s7i a (some as)) := by
        intro h'
        obtain ⟨a, ha, hr⟩ := ih h'
        exact ⟨a, List.mem_cons_of_mem _ ha, hr⟩
      split at h
      · exact step h
      · split at h
        · exact step h
        · simp only at h
          split at h
          · exact step h
          · rcases List.mem_append.mp h with h | h
            · refine ⟨asp, List.mem_cons_self _ _, ?_, xua_tx_scon_mem _ _ _ _ _ _ _ h⟩
              simp_all [fanout_ok]
            · exact step h

/-- The endpoint loop of `xua_snm_pc_available` in closed form: each qualifying endpoint,
in order, gets what `xua_tx_snm_available` sends for it. -/
theorem xua_snm_pc_available_asps_eq (s7i : osmo_ss7_instance) (as : osmo_ss7_as)
    (aff_pc : List Nat) (info_str : Option String) (available : Bool) :
    ∀ l : List osmo_ss7_asp,
      xua_snm_pc_available_asps s7i as aff_pc info_str available l
        = (l.filter (fanout_ok s7i as)).flatMap (fun asp =>
            xua_tx_snm_available asp (get_all_rctx_for_asp 32 s7i asp (some as)) aff_pc
              info_str available) := by
  intro l
  induction l with
  | nil => simp [xua_snm_pc_available_asps]
  | cons asp rest ih =>
      rw [xua_snm_pc_available_asps, ih]
      by_cases h1 : osmo_ss7_asp_active asp = true
      · by_cases h2 : asp.role = osmo_ss7_asp_role.SG
        · by_cases h3 : get_all_rctx_for_asp 32 s7i asp (some as) = []
          · simp [h1, h2, h3, fanout_ok]
          · have h4 : fanout_ok s7i as asp = true := by simp [fanout_ok, h1, h2, h3]
            simp [h1, h2, h3, h4, List.filter_cons_of_pos]
        · simp [h1, h2, fanout_ok]
      · simp [h1, fanout_ok]

/-- The local primitives of `xua_snm_pc_available_to_sccp` are not transmissions. -/
theorem xua_snm_pc_available_to_sccp_filter_tx (aff_pc : List Nat) (available : Bool) :
    (xua_snm_pc_available_to_sccp aff_pc available).filter xua_event.is_tx = [] := by
  rw [List.filter_eq_nil_iff]
  intro ev hev
  obtain ⟨p, hp⟩ := xua_snm_pc_available_to_sccp_mem _ _ _ hev
  cases available <;> simp [hp, xua_event.is_tx, xua_event.dest]

/-- The low 24 bits and the top byte of a word, arithmetically. -/
theorem pc_mask_arith (x : Nat) :
    x &&& 0xffffff = x % 16777216 ∧ (x >>> 24) % 256 = x / 16777216 % 256 := by
  constructor
  · exact Nat.and_pow_two_sub_one_eq_mod x 24
  · rw [Nat.shiftRight_eq_div_pow]

/-- The loop of `xua_snm_rx_daud` in closed form. -/
theorem xua_snm_rx_daud_loop_eq (s7i : osmo_ss7_instance) (asp : osmo_ss7_asp)
    (rctx : List Nat) :
    ∀ l : List Nat,
      xua_snm_rx_daud_loop s7i asp rctx l
        = (l.filter (fun w => decide (aff_pc_mask w = 0))).flatMap (fun w =>
            xua_tx_snm_available asp rctx [w] (some "Response to DAUD")
              (s7i.route_lookup (aff_pc_pc w))) := by
  intro l
  induction l with
  | nil => simp [xua_snm_rx_daud_loop]
  | cons w rest ih =>
      rw [xua_snm_rx_daud_loop, ih]
      simp only [(pc_mask_arith (ntohl w)).1, (pc_mask_arith (ntohl w)).2]
      by_cases h : aff_pc_mask w = 0
      · have h' : ntohl w / 16777216 % 256 = 0 := h
        simp [h, h', aff_pc_pc]
      · have h' : ¬ ntohl w / 16777216 % 256 = 0 := h
        simp [h, h']

/-- The number of cells of the `uint32_t` array is `len / sizeof(uint32_t)`. -/
theorem u32_array_length : ∀ dat : List Nat, (u32_array dat).length = dat.length / 4
  | [] => by simp [u32_array]
  | [_] => by simp [u32_array]
  | [_, _] => by simp [u32_array]
  | [_, _, _] => by simp [u32_array]
  | _ :: _ :: _ :: _ :: rest => by
      simp only [u32_array, List.length_cons, u32_array_length rest]
      omega

/-- The events of `sua_snm_ssn_available` are one subsystem primitive when a local user is
attached, followed by the transmissions of the endpoint loop. -/
theorem sua_snm_ssn_available_mem (s7i : osmo_ss7_instance) (as : osmo_ss7_as)
    (aff_pc aff_ssn : Nat) (smi : Option Nat) (info_str : Option String) (available : Bool)
    (ev : xua_event)
    (h : ev ∈ sua_snm_ssn_available s7i as aff_pc aff_ssn smi info_str available) :
    (s7i.sccp = true ∧ ev = (if available then
          xua_event.sccp_scmg_rx_ssn_allowed aff_pc aff_ssn (smi.getD 0)
        else xua_event.sccp_scmg_rx_ssn_prohibited aff_pc aff_ssn (smi.getD 0)))
      ∨ ∃ asp ∈ s7i.asp_list, fanout_ok s7i as asp = true
          ∧ asp.proto = osmo_ss7_asp_protocol.SUA
          ∧ ev = xua_event.sua_tx_snm_available asp
              (get_all_rctx_for_asp 32 s7i asp (some as)) [aff_pc] (some aff_ssn) smi
              info_str available := by
  unfold sua_snm_ssn_available at h
  rcases List.mem_append.mp h with h | h
  · left
    split at h
    · rename_i hs
      refine ⟨hs, ?_⟩
      unfold sua_snm_ssn_available_to_sccp at h
      cases smi <;> cases available <;> simpa using h
    · simp at h
  · right
    exact sua_snm_ssn_available_asps_mem _ _ _ _ _ _ _ _ _ h

/-- The bound `hi = pc | maskbits` of the inner loop is below the largest `uint32_t`, so
`fullpc <= hi` fails before `fullpc++` can wrap and the loop terminates. -/
theorem hi_lt_uint32_max (x mask : Nat) :
    (x &&& 0xffffff) ||| maskbits mask < 4294967295 := by
  have h1 : x &&& 0xffffff < 2 ^ 31 := by
    have := (pc_mask_arith x).1
    omega
  have h2 : maskbits mask < 2 ^ 31 := by
    unfold maskbits
    have hk : mask % 32 ≤ 31 := by omega
    have hp : 2 ^ (mask % 32) ≤ 2 ^ 31 := Nat.pow_le_pow_right (by norm_num) hk
    have hpos : 0 < 2 ^ (mask % 32) := Nat.two_pow_pos _
    rw [Nat.one_shiftLeft]
    omega
  have := Nat.or_lt_two_pow h1 h2
  omega

/-- A byte-swapped word fits in 32 bits. -/
theorem bswap32_lt (x : Nat) : bswap32 x < 4294967296 := by
  unfold bswap32
  omega

/-- The value read by `xua_msg_get_u32` fits in 32 bits. -/
theorem xua_msg_get_u32_lt (xua : xua_msg) (tag : Nat) :
    xua_msg_get_u32 xua tag < 4294967296 := by
  unfold xua_msg_get_u32
  split
  · unfold xua_msg_part_get_u32
    split
    · exact bswap32_lt _
    · decide
  · decide

/-- The endpoint loop of `xua_snm_upu` in closed form. -/
theorem xua_snm_upu_asps_eq (s7i : osmo_ss7_instance) (as : osmo_ss7_as)
    (dpc user cause : Nat) (info_str : Option String) :
    ∀ l : List osmo_ss7_asp,
      xua_snm_upu_asps s7i as dpc user cause info_str l
        = (l.filter (fanout_ok s7i as)).flatMap (fun asp =>
            xua_tx_upu asp (get_all_rctx_for_asp 32 s7i asp (some as)) dpc user cause
              info_str) := by
  intro l
  induction l with
  | nil => simp [xua_snm_upu_asps]
  | cons asp rest ih =>
      rw [xua_snm_upu_asps, ih]
      by_cases h1 : osmo_ss7_asp_active asp = true
      · by_cases h2 : asp.role = osmo_ss7_asp_role.SG
        · by_cases h3 : get_all_rctx_for_asp 32 s7i asp (some as) = []
          · simp [h1, h2, h3, fanout_ok]
          · have h4 : fanout_ok s7i as asp = true := by simp [fanout_ok, h1, h2, h3]
            simp [h1, h2, h3, h4, List.filter_cons_of_pos]
        · simp [h1, h2, fanout_ok]
      · simp [h1, fanout_ok]

/-- The endpoint loop of `xua_snm_scon` in closed form. -/
theorem xua_snm_scon_asps_eq (s7i : osmo_ss7_instance) (as : osmo_ss7_as)
    (aff_pc : List Nat) (concerned_dpc cong_level : Option Nat)
    (info_string : Option String) :
    ∀ l : List osmo_ss7_asp,
      xua_snm_scon_asps s7i as aff_pc concerned_dpc cong_level info_string l
        = (l.filter (fanout_ok s7i as)).flatMap (fun asp =>
            xua_tx_scon asp (get_all_rctx_for_asp 32 s7i asp (some as)) aff_pc concerned_dpc
              cong_level info_string) := by
  intro l
  induction l with
  | nil => simp [xua_snm_scon_asps]
  | cons asp rest ih =>
      rw [xua_snm_scon_asps, ih]
      by_cases h1 : osmo_ss7_asp_active asp = true
      · by_cases h2 : asp.role = osmo_ss7_asp_role.SG
        · by_cases h3 : get_all_rctx_for_asp 32 s7i asp (some as) = []
          · simp [h1, h2, h3, fanout_ok]
          · have h4 : fanout_ok s7i as asp = true := by simp [fanout_ok, h1, h2, h3]
            simp [h1, h2, h3, h4, List.filter_cons_of_pos]
        · simp [h1, h2, fanout_ok]
      · simp [h1, fanout_ok]

/-- Splitting a 32-bit word into its high and low halves loses nothing. -/
theorem cause_user_split (c : Nat) (hc : c < 4294967296) :
    (c >>> 16) % 65536 = c >>> 16 ∧ (c &&& 0xffff) % 65536 = c &&& 0xffff
      ∧ ((c >>> 16) <<< 16) ||| (c &&& 0xffff) = c := by
  have h1 : c >>> 16 = c / 65536 := by rw [Nat.shiftRight_eq_div_pow]
  have h2 : c &&& 0xffff = c % 65536 := Nat.and_pow_two_sub_one_eq_mod c 16
  have h3 : c % 65536 < 2 ^ 16 := by omega
  refine ⟨by omega, by omega, ?_⟩
  rw [h1, h2, Nat.shiftLeft_eq, Nat.mul_comm, ← Nat.mul_add_lt_is_or h3]
  omega

/-- Every event of `xua_snm_scon` is the congestion message of the encoding of a
qualifying endpoint: the M3UA message carries the four arguments as given, the SUA message
carries the congestion level by value, 0 when absent, and no concerned destination. -/
theorem xua_snm_scon_mem (s7i : osmo_ss7_instance) (as : osmo_ss7_as) (aff_pc : List Nat)
    (concerned_dpc cong_level : Option Nat) (info_string : Option String) (ev : xua_event)
    (h : ev ∈ xua_snm_scon s7i as aff_pc concerned_dpc cong_level info_string) :
    ∃ asp ∈ s7i.asp_list, fanout_ok s7i as asp = true
      ∧ ((asp.proto = osmo_ss7_asp_protocol.M3UA
          ∧ ev = xua_event.m3ua_tx_snm_congestion asp
              (get_all_rctx_for_asp 32 s7i asp (some as)) aff_pc concerned_dpc cong_level
              info_string)
        ∨ (asp.proto = osmo_ss7_asp_protocol.SUA
          ∧ ev = xua_event.sua_tx_snm_congestion asp
              (get_all_rctx_for_asp 32 s7i asp (some as)) aff_pc none (cong_level.getD 0)
              info_string)) := by
  unfold xua_snm_scon at h
  rw [xua_snm_scon_asps_eq] at h
  obtain ⟨a, ha, hev⟩ := List.mem_flatMap.mp h
  rw [List.mem_filter] at ha
  refine ⟨a, ha.1, ha.2, ?_⟩
  unfold xua_tx_scon at hev
  split at hev
  · rename_i hp
    left
    exact ⟨hp, by simpa using hev⟩
  · rename_i hp
    right
    refine ⟨hp, ?_⟩
    cases cong_level <;> simpa using hev
  · simp at hev

/-- A transmission to a qualifying endpoint that carries its resolved contexts carries a
non-empty context list. -/
theorem rctx_nonempty_of_fanout (s7i : osmo_ss7_instance) (as : osmo_ss7_as)
    (l : List osmo_ss7_asp) (ev : xua_event)
    (h : ∃ asp ∈ l, fanout_ok s7i as asp = true ∧ ev.dest = some asp
      ∧ ev.rctx = some (get_all_rctx_for_asp 32 s7i asp (some as))) :
    ev.rctx ≠ some []
      ∧ ∀ asp, ev.dest = some asp →
          get_all_rctx_for_asp 32 s7i asp (some as) ≠ []
            ∧ ev.rctx = some (get_all_rctx_for_asp 32 s7i asp (some as)) := by
  obtain ⟨a, _, hok, hd, hr⟩ := h
  simp [fanout_ok] at hok
  constructor
  · rw [hr]
    intro hn
    exact hok.2 (Option.some.inj hn)
  · intro asp hasp
    rw [hd] at hasp
    have e : a = asp := Option.some.inj hasp
    subst e
    exact ⟨hok.2, hr⟩

/-- Every reply of the loop of `xua_snm_rx_daud` is addressed to the querying endpoint and
carries the context list resolved before the loop. -/
theorem xua_snm_rx_daud_loop_mem (s7i : osmo_ss7_instance) (asp : osmo_ss7_asp)
    (rctx : List Nat) (l : List Nat) (ev : xua_event)
    (h : ev ∈ xua_snm_rx_daud_loop s7i asp rctx l) :
    ev.dest = some asp ∧ ev.rctx = some rctx := by
  rw [xua_snm_rx_daud_loop_eq] at h
  obtain ⟨w, _, hw⟩ := List.mem_flatMap.mp h
  exact xua_tx_snm_available_mem _ _ _ _ _ _ hw

/-- Setting the low `m` bits of a number. -/
theorem or_low_bits (pc m : Nat) : pc ||| (2 ^ m - 1) = 2 ^ m * (pc / 2 ^ m) + (2 ^ m - 1) := by
  have hlt : 2 ^ m - 1 < 2 ^ m := by
    have := Nat.two_pow_pos m
    omega
  apply Nat.eq_of_testBit_eq
  intro j
  rw [Nat.testBit_or, Nat.testBit_two_pow_sub_one, Nat.testBit_mul_pow_two_add _ hlt,
    Nat.testBit_two_pow_sub_one]
  by_cases hj : j < m
  · simp [hj]
  · have e : m + (j - m) = j := by omega
    have hdiv : (pc / 2 ^ m).testBit (j - m) = pc.testBit j := by
      rw [← Nat.shiftRight_eq_div_pow, Nat.testBit_shiftRight, e]
    simp [hj, hdiv]

/-- Clearing the low `m` bits of a 32-bit number with the 32-bit complement of the mask. -/
theorem and_not_low_bits (pc m : Nat) (hpc : pc < 2 ^ 32) (hm : m ≤ 32) :
    pc &&& (0xffffffff ^^^ (2 ^ m - 1)) = 2 ^ m * (pc / 2 ^ m) := by
  have h0 : (0 : Nat) < 2 ^ m := Nat.two_pow_pos m
  have hall : (0xffffffff : Nat) = 2 ^ 32 - 1 := by norm_num
  apply Nat.eq_of_testBit_eq
  intro j
  have hr := Nat.testBit_mul_pow_two_add (pc / 2 ^ m) h0 j
  rw [Nat.add_zero] at hr
  rw [hr, Nat.testBit_and, Nat.testBit_xor, hall, Nat.testBit_two_pow_sub_one,
    Nat.testBit_two_pow_sub_one]
  by_cases hj : j < m
  · have hj32 : j < 32 := by omega
    simp [hj, hj32]
  · by_cases hj32 : j < 32
    · have e : m + (j - m) = j := by omega
      have hdiv : (pc / 2 ^ m).testBit (j - m) = pc.testBit j := by
        rw [← Nat.shiftRight_eq_div_pow, Nat.testBit_shiftRight, e]
      simp [hj, hj32, hdiv]
    · have hbig : pc < 2 ^ j :=
        Nat.lt_of_lt_of_le hpc (Nat.pow_le_pow_right (by norm_num) (by omega))
      have e : m + (j - m) = j := by omega
      have hdiv : (pc / 2 ^ m).testBit (j - m) = pc.testBit j := by
        rw [← Nat.shiftRight_eq_div_pow, Nat.testBit_shiftRight, e]
      simp [hj, hj32, hdiv, Nat.testBit_lt_two_pow hbig]

/-- For a mask between 1 and 31 the value of `maskbits` is `2 ^ mask - 1`. -/
theorem maskbits_eq (m : Nat) (hm : m ≤ 31) : maskbits m = 2 ^ m - 1 := by
  unfold maskbits
  have h1 : m % 32 = m := by omega
  have h2 : 2 ^ m ≤ 2 ^ 31 := Nat.pow_le_pow_right (by norm_num) hm
  rw [h1, Nat.one_shiftLeft]
  omega

/-- The number of iterations of the inner loop: the range from `pc & ~maskbits` to
`pc | maskbits` has `2 ^ mask` elements. -/
theorem loop_range_size (pc m : Nat) (hpc : pc < 2 ^ 32) (hm : m ≤ 31) :
    (pc ||| maskbits m) + 1 - (pc &&& (0xffffffff ^^^ maskbits m)) = 2 ^ m := by
  rw [maskbits_eq m hm, or_low_bits, and_not_low_bits pc m hpc (by omega)]
  have := Nat.two_pow_pos m
  omega

/-- The local primitives of the point code propagator for available are those for
unavailable with the availability flipped. -/
theorem xua_snm_pc_available_to_sccp_flip :
    ∀ aff_pc : List Nat,
      xua_snm_pc_available_to_sccp aff_pc true
        = (xua_snm_pc_available_to_sccp aff_pc false).map xua_event.make_available := by
  intro aff_pc
  induction aff_pc with
  | nil => simp [xua_snm_pc_available_to_sccp]
  | cons w rest ih =>
      rw [xua_snm_pc_available_to_sccp, xua_snm_pc_available_to_sccp, ih, List.map_append]
      congr 1
      split
      · simp [xua_event.make_available]
      · rw [xua_snm_pc_available_to_sccp_loop_eq true _ _ _ _ rfl,
          xua_snm_pc_available_to_sccp_loop_eq false _ _ _ _ rfl]
        simp [xua_event.make_available]

/-- The output of `xua_snm_pc_available` for available is the output for unavailable with
the availability flipped; every event of the latter reports unavailable. -/
theorem xua_snm_pc_available_flip (s7i : osmo_ss7_instance) (as : osmo_ss7_as)
    (aff_pc : List Nat) (info_str : Option String) :
    xua_snm_pc_available s7i as aff_pc info_str true
        = (xua_snm_pc_available s7i as aff_pc info_str false).map xua_event.make_available
      ∧ ∀ (available : Bool), ∀ ev ∈ xua_snm_pc_available s7i as aff_pc info_str available,
          ev.availability = some available := by
  constructor
  · unfold xua_snm_pc_available
    rw [List.map_append, xua_snm_pc_available_asps_eq, xua_snm_pc_available_asps_eq]
    congr 1
    · split
      · exact xua_snm_pc_available_to_sccp_flip aff_pc
      · rfl
    · induction s7i.asp_list.filter (fanout_ok s7i as) with
      | nil => simp
      | cons a rest ih =>
          rw [List.flatMap_cons, List.flatMap_cons, List.map_append, ih]
          congr 1
          cases hp : a.proto <;> simp [xua_tx_snm_available, hp, xua_event.make_available]
  · intro available ev hev
    unfold xua_snm_pc_available at hev
    rcases List.mem_append.mp hev with h | h
    · split at h
      · obtain ⟨p, hp⟩ := xua_snm_pc_available_to_sccp_mem _ _ _ h
        cases available <;> simp [hp, xua_event.availability]
      · simp at h
    · rw [xua_snm_pc_available_asps_eq] at h
      obtain ⟨a, _, ha⟩ := List.mem_flatMap.mp h
      unfold xua_tx_snm_available at ha
      split at ha <;> simp at ha <;> simp [ha, xua_event.availability]

/-- The output of `sua_snm_ssn_available` for available is the output for unavailable with
the availability flipped; every event of the latter reports unavailable. -/
theorem sua_snm_ssn_available_flip (s7i : osmo_ss7_instance) (as : osmo_ss7_as)
    (pc ssn : Nat) (smi : Option Nat) (info_str : Option String) :
    sua_snm_ssn_available s7i as pc ssn smi info_str true
        = (sua_snm_ssn_available s7i as pc ssn smi info_str false).map
            xua_event.make_available
      ∧ ∀ (available : Bool), ∀ ev ∈ sua_snm_ssn_available s7i as pc ssn smi info_str available,
          ev.availability = some available := by
  have hloop : ∀ l : List osmo_ss7_asp,
      sua_snm_ssn_available_asps s7i as pc ssn smi info_str true l
        = (sua_snm_ssn_available_asps s7i as pc ssn smi info_str false l).map
            xua_event.make_available := by
    intro l
    induction l with
    | nil => simp [sua_snm_ssn_available_asps]
    | cons a rest ih =>
        rw [sua_snm_ssn_available_asps, sua_snm_ssn_available_asps]
        split
        · exact ih
        · split
          · exact ih
          · split
            · exact ih
            · simp only
              split
              · exact ih
              · rw [List.map_cons, ih]
                simp [xua_event.make_available]
  constructor
  · simp only [sua_snm_ssn_available, List.map_append, hloop]
    congr 1
    cases smi <;> cases s7i.sccp <;>
      simp [sua_snm_ssn_available_to_sccp, xua_event.make_available]
  · intro available ev hev
    rcases sua_snm_ssn_available_mem _ _ _ _ _ _ _ _ hev with ⟨_, h⟩ | ⟨a, _, _, _, h⟩
    · cases available <;> simp [h, xua_event.availability]
    · simp [h, xua_event.availability]

/-- Reading the cells below `count` is not affected by a write to cell `count`, which
becomes the next cell read. -/
theorem rctx_read_update (rctx : Nat → Nat) (count v : Nat) :
    rctx_read (Function.update rctx count v) (count + 1) = rctx_read rctx count ++ [v] := by
  unfold rctx_read
  rw [List.range_succ, List.map_append]
  congr 1
  · apply List.map_congr_left
    intro i hi
    have : i ≠ count := by
      have := List.mem_range.mp hi
      omega
    simp [Function.update, this]
  · simp

/-- The cells that the writing loop of `get_all_rctx_for_asp` leaves below the count it
returns are the cells that were below `count` at its start followed by the contexts
selected, whatever the array held before; the count returned is their number. -/
theorem get_all_rctx_for_asp_st_loop_eq (rctx_size : Nat) (asp : osmo_ss7_asp)
    (excl_as : Option osmo_ss7_as) (l : List osmo_ss7_as) :
    ∀ (rctx : Nat → Nat) (count : Nat),
      rctx_read (get_all_rctx_for_asp_st_loop rctx_size asp excl_as l rctx count).1
          (get_all_rctx_for_asp_st_loop rctx_size asp excl_as l rctx count).2
        = get_all_rctx_for_asp_loop rctx_size asp excl_as l (rctx_read rctx count)
      ∧ (get_all_rctx_for_asp_st_loop rctx_size asp excl_as l rctx count).2
        = (get_all_rctx_for_asp_loop rctx_size asp excl_as l (rctx_read rctx count)).length
    := by
  induction l with
  | nil =>
      intro rctx count
      simp [get_all_rctx_for_asp_st_loop, get_all_rctx_for_asp_loop, rctx_read]
  | cons a rest ih =>
      intro rctx count
      rw [get_all_rctx_for_asp_st_loop, get_all_rctx_for_asp_loop]
      have hlen : (rctx_read rctx count).length = count := by simp [rctx_read]
      split
      · exact ih rctx count
      · split
        · exact ih rctx count
        · split
          · exact ih rctx count
          · rw [hlen]
            split
            · simp [rctx_read]
            · rw [← rctx_read_update]
              exact ih _ _

/-- The call of `get_all_rctx_for_asp` on an array leaves, in the cells below the count
it returns, the contexts resolved for the endpoint, whatever the array held before. -/
theorem get_all_rctx_for_asp_st_eq (rctx_size : Nat) (s7i : osmo_ss7_instance)
    (asp : osmo_ss7_asp) (excl_as : Option osmo_ss7_as) (rctx : Nat → Nat) :
    rctx_read (get_all_rctx_for_asp_st rctx_size s7i asp excl_as rctx).1
        (get_all_rctx_for_asp_st rctx_size s7i asp excl_as rctx).2
      = get_all_rctx_for_asp rctx_size s7i asp excl_as
    ∧ (get_all_rctx_for_asp_st rctx_size s7i asp excl_as rctx).2
      = (get_all_rctx_for_asp rctx_size s7i asp excl_as).length := by
  have h := get_all_rctx_for_asp_st_loop_eq rctx_size asp excl_as s7i.as_list rctx 0
  have h0 : rctx_read rctx 0 = [] := by simp [rctx_read]
  rw [h0] at h
  exact h

/-- The events of the endpoint loop of `xua_snm_pc_available` do not depend on what the
array `rctx` holds when the loop starts. -/
theorem xua_snm_pc_available_asps_st_events (s7i : osmo_ss7_instance) (as : osmo_ss7_as)
    (aff_pc : List Nat) (info_str : Option String) (available : Bool) :
    ∀ (l : List osmo_ss7_asp) (rctx : Nat → Nat),
      (xua_snm_pc_available_asps_st s7i as aff_pc info_str available l rctx).1
        = xua_snm_pc_available_asps s7i as aff_pc info_str available l := by
  intro l
  induction l with
  | nil =>
      intro rctx
      simp [xua_snm_pc_available_asps_st, xua_snm_pc_available_asps]
  | cons asp rest ih =>
      intro rctx
      rw [xua_snm_pc_available_asps_st, xua_snm_pc_available_asps]
      obtain ⟨hread, hnum⟩ := get_all_rctx_for_asp_st_eq 32 s7i asp (some as) rctx
      split
      · exact ih rctx
      · split
        · exact ih rctx
        · have hread2 : rctx_read (get_all_rctx_for_asp_st 32 s7i asp (some as) rctx).1
              (get_all_rctx_for_asp 32 s7i asp (some as)).length
                = get_all_rctx_for_asp 32 s7i asp (some as) := by
            rw [← hnum]
            exact hread
          simp only [hnum, hread2]
          split
          · exact ih _
          · rw [ih]

/-- The events of `xua_snm_pc_available` as a step on its memory are those of the
embedding without memory, whatever the array `rctx` holds at the call. -/
theorem xua_snm_pc_available_st_events (st : snm_state) (as : osmo_ss7_as)
    (aff_pc : List Nat) (info_str : Option String) (available : Bool) :
    (xua_snm_pc_available_st st as aff_pc info_str available).1
      = xua_snm_pc_available st.s7i as aff_pc info_str available := by
  simp only [xua_snm_pc_available_st, xua_snm_pc_available,
    xua_snm_pc_available_asps_st_events]

/-! ## Claims -/

/-- C1: `get_all_rctx_for_asp` returns exactly the routing contexts, converted to network
byte order, of the application servers of the instance, in configuration order, that are
not the excluded one, that have the endpoint as a member and whose routing context is not
zero, truncated to the first `rctx_size` of them; the count returned is at most
`rctx_size`. -/
theorem C1_get_all_rctx_for_asp_exact (rctx_size : Nat) (s7i : osmo_ss7_instance)
    (asp : osmo_ss7_asp) (excl_as : Option osmo_ss7_as) :
    get_all_rctx_for_asp rctx_size s7i asp excl_as
        = ((s7i.as_list.filter (fun a =>
              decide (some a.addr ≠ excl_as.map (fun e => e.addr))
                && osmo_ss7_as_has_asp a asp && decide (a.context ≠ 0))).map
              (fun a => htonl a.context.val)).take rctx_size
      ∧ (get_all_rctx_for_asp rctx_size s7i asp excl_as).length ≤ rctx_size := by
  refine ⟨get_all_rctx_for_asp_eq rctx_size s7i asp excl_as, ?_⟩
  rw [get_all_rctx_for_asp_eq]
  simp [List.length_take]

/-- C2: the value 0 never occurs among the routing contexts returned by
`get_all_rctx_for_asp`, and the entries returned are the contexts of a subsequence of the
application servers of the instance none of which has routing context 0. -/
theorem C2_rctx_zero_never_returned (rctx_size : Nat) (s7i : osmo_ss7_instance)
    (asp : osmo_ss7_asp) (excl_as : Option osmo_ss7_as) :
    0 ∉ get_all_rctx_for_asp rctx_size s7i asp excl_as
      ∧ ∃ sel : List osmo_ss7_as, sel.Sublist s7i.as_list
          ∧ (∀ a ∈ sel, a.context ≠ 0)
          ∧ get_all_rctx_for_asp rctx_size s7i asp excl_as
              = sel.map (fun a => htonl a.context.val) := by
  constructor
  · rw [get_all_rctx_for_asp_eq]
    intro h
    have h1 := List.mem_of_mem_take h
    rw [List.mem_map] at h1
    obtain ⟨a, ha, hz⟩ := h1
    rw [List.mem_filter] at ha
    have h3 : a.context ≠ 0 := by
      have := ha.2
      simp at this
      exact this.2
    have h4 : a.context.val = 0 := bswap32_eq_zero _ a.context.isLt hz
    exact h3 (Fin.ext h4)
  · refine ⟨(s7i.as_list.filter (fun a =>
        decide (some a.addr ≠ excl_as.map (fun e => e.addr))
          && osmo_ss7_as_has_asp a asp && decide (a.context ≠ 0))).take rctx_size, ?_, ?_, ?_⟩
    · exact (List.take_sublist _ _).trans (List.filter_sublist _)
    · intro a ha
      have h1 := List.mem_of_mem_take ha
      rw [List.mem_filter] at h1
      have := h1.2
      simp at this
      exact this.2
    · rw [get_all_rctx_for_asp_eq, List.map_take]

/-- C3: for each of the four propagators (`xua_snm_pc_available`, `sua_snm_ssn_available`,
`xua_snm_upu`, `xua_snm_scon`) and every input, every endpoint that a transmission is
addressed to is an endpoint of the instance that is in the active state and has the SG
role. -/
theorem C3_tx_only_to_active_sg (s7i : osmo_ss7_instance) (as : osmo_ss7_as)
    (aff_pc : List Nat) (info_str : Option String) (available : Bool)
    (pc ssn : Nat) (smi : Option Nat) (dpc user cause : Nat)
    (concerned_dpc cong_level : Option Nat) :
    (∀ ev ∈ xua_snm_pc_available s7i as aff_pc info_str available, ∀ asp,
        ev.dest = some asp →
          asp ∈ s7i.asp_list ∧ osmo_ss7_asp_active asp = true
            ∧ asp.role = osmo_ss7_asp_role.SG)
    ∧ (∀ ev ∈ sua_snm_ssn_available s7i as pc ssn smi info_str available, ∀ asp,
        ev.dest = some asp →
          asp ∈ s7i.asp_list ∧ osmo_ss7_asp_active asp = true
            ∧ asp.role = osmo_ss7_asp_role.SG)
    ∧ (∀ ev ∈ xua_snm_upu s7i as dpc user cause info_str, ∀ asp,
        ev.dest = some asp →
          asp ∈ s7i.asp_list ∧ osmo_ss7_asp_active asp = true
            ∧ asp.role = osmo_ss7_asp_role.SG)
    ∧ (∀ ev ∈ xua_snm_scon s7i as aff_pc concerned_dpc cong_level info_str, ∀ asp,
        ev.dest = some asp →
          asp ∈ s7i.asp_list ∧ osmo_ss7_asp_active asp = true
            ∧ asp.role = osmo_ss7_asp_role.SG) := by
  have key : ∀ a : osmo_ss7_asp, fanout_ok s7i as a = true →
      osmo_ss7_asp_active a = true ∧ a.role = osmo_ss7_asp_role.SG := by
    intro a h
    simp [fanout_ok] at h
    exact ⟨h.1.1, h.1.2⟩
  refine ⟨?_, ?_, ?_, ?_⟩
  · intro ev hev asp hd
    unfold xua_snm_pc_available at hev
    rcases List.mem_append.mp hev with h | h
    · split at h
      · obtain ⟨p, hp⟩ := xua_snm_pc_available_to_sccp_mem _ _ _ h
        cases available <;> simp [hp, xua_event.dest] at hd
      · simp at h
    · obtain ⟨a, ha, hok, hda, _⟩ := xua_snm_pc_available_asps_mem _ _ _ _ _ _ _ h
      rw [hda] at hd
      have e : a = asp := Option.some.inj hd
      rw [← e]
      exact ⟨ha, key a hok⟩
  · intro ev hev asp hd
    unfold sua_snm_ssn_available at hev
    rcases List.mem_append.mp hev with h | h
    · split at h
      · unfold sua_snm_ssn_available_to_sccp at h
        cases available <;> simp at h <;> simp [h, xua_event.dest] at hd
      · simp at h
    · obtain ⟨a, ha, hok, _, hev⟩ := sua_snm_ssn_available_asps_mem _ _ _ _ _ _ _ _ _ h
      rw [hev] at hd
      simp [xua_event.dest] at hd
      subst hd
      exact ⟨ha, key a hok⟩
  · intro ev hev asp hd
    unfold xua_snm_upu at hev
    rcases List.mem_append.mp hev with h | h
    · split at h
      · simp at h
        simp [h, xua_event.dest] at hd
      · simp at h
    · obtain ⟨a, ha, hok, hda, _⟩ := xua_snm_upu_asps_mem _ _ _ _ _ _ _ _ h
      rw [hda] at hd
      have e : a = asp := Option.some.inj hd
      rw [← e]
      exact ⟨ha, key a hok⟩
  · intro ev hev asp hd
    unfold xua_snm_scon at hev
    obtain ⟨a, ha, hok, hda, _⟩ := xua_snm_scon_asps_mem _ _ _ _ _ _ _ _ hev
    rw [hda] at hd
    have e : a = asp := Option.some.inj hd
    rw [← e]
    exact ⟨ha, key a hok⟩

/-- C4, counterexample: an active IPA endpoint in the SG role with a non-empty resolved
context set qualifies for the fan-out, yet `xua_snm_pc_available` sends it nothing (the
`default:` branch of `xua_tx_snm_available`); the only event is the local primitive. -/
theorem C4_counterexample_ipa_endpoint :
    fanout_ok ipa_inst scenario_AS1 ipa_E3 = true
      ∧ xua_snm_pc_available ipa_inst scenario_AS1 scenario_aff_pc (some "test") true
          = [xua_event.sccp_scmg_rx_mtp_resume 100] := by
  decide

/-- C4, amended: the transmissions of `xua_snm_pc_available` are exactly, for each endpoint
of the instance, in configuration order, that is active, has the SG role, has non-empty
routing contexts resolved with `as` excluded and whose protocol variant is M3UA or SUA, one
availability message to that endpoint in the encoding of its variant, carrying those
contexts, the affected point code list unchanged, the info text and the flag. In the spec
scenario the output is the local primitive for point code 100 and one SUA message to E2
with the context 9 in network byte order. -/
theorem C4_pc_available_transmissions (s7i : osmo_ss7_instance) (as : osmo_ss7_as)
    (aff_pc : List Nat) (info_str : Option String) (available : Bool) :
    (xua_snm_pc_available s7i as aff_pc info_str available).filter xua_event.is_tx
        = ((s7i.asp_list.filter (fun asp => fanout_ok s7i as asp
              && (decide (asp.proto = osmo_ss7_asp_protocol.M3UA)
                || decide (asp.proto = osmo_ss7_asp_protocol.SUA)))).map (fun asp =>
            if asp.proto = osmo_ss7_asp_protocol.M3UA then
              xua_event.m3ua_tx_snm_available asp
                (get_all_rctx_for_asp 32 s7i asp (some as)) aff_pc info_str available
            else
              xua_event.sua_tx_snm_available asp
                (get_all_rctx_for_asp 32 s7i asp (some as)) aff_pc none none info_str
                available))
      ∧ xua_snm_pc_available scenario_inst scenario_AS1 scenario_aff_pc (some "test") true
          = [xua_event.sccp_scmg_rx_mtp_resume 100,
             xua_event.sua_tx_snm_available scenario_E2 [htonl 9] scenario_aff_pc none none
               (some "test") true] := by
  refine ⟨?_, by decide⟩
  unfold xua_snm_pc_available
  rw [List.filter_append, xua_snm_pc_available_asps_eq]
  have h0 : (if s7i.sccp = true then xua_snm_pc_available_to_sccp aff_pc available
      else []).filter xua_event.is_tx = [] := by
    split
    · exact xua_snm_pc_available_to_sccp_filter_tx _ _
    · rfl
  rw [h0, List.nil_append]
  induction s7i.asp_list with
  | nil => simp
  | cons asp rest ih =>
      by_cases hq : fanout_ok s7i as asp = true
      · rw [List.filter_cons_of_pos hq, List.flatMap_cons, List.filter_append, ih]
        cases hp : asp.proto <;>
          simp [xua_tx_snm_available, hp, hq, xua_event.is_tx, xua_event.dest]
      · rw [List.filter_cons_of_neg hq]
        rw [List.filter_cons_of_neg (by simp [hq])]
        exact ih

/-- C5, the code at the failing input: for the entry (pc = 100, mask = 2), which denotes the
point codes 100 to 103, `xua_snm_pc_available_to_sccp` emits four primitives that all carry
the point code 100 (the loop passes `pc`, not `fullpc`), so the four notifications are not
distinct and 101, 102 and 103 are never notified. -/
theorem C5_mask_expansion_repeats_base_pc :
    xua_snm_pc_available_to_sccp masked_aff_pc true
        = [xua_event.sccp_scmg_rx_mtp_resume 100, xua_event.sccp_scmg_rx_mtp_resume 100,
           xua_event.sccp_scmg_rx_mtp_resume 100, xua_event.sccp_scmg_rx_mtp_resume 100]
      ∧ xua_snm_pc_available_to_sccp masked_aff_pc false
        = [xua_event.sccp_scmg_rx_mtp_pause 100, xua_event.sccp_scmg_rx_mtp_pause 100,
           xua_event.sccp_scmg_rx_mtp_pause 100, xua_event.sccp_scmg_rx_mtp_pause 100] := by
  constructor <;>
  · rw [masked_aff_pc, xua_snm_pc_available_to_sccp]
    rw [xua_snm_pc_available_to_sccp_loop_eq _ _ _ _ _ rfl]
    decide

/-- C6, counterexample: a query for the single point code 100 (mask 0, a route exists)
from an IPA endpoint is accepted and produces no reply at all, not one. -/
theorem C6_counterexample_ipa_endpoint :
    xua_msg_find_tag daud_single_msg M3UA_IEI_AFFECTED_PC
        = some ⟨0x0012, [0, 0, 0, 100]⟩
      ∧ ipa_inst.route_lookup 100 = true
      ∧ xua_snm_rx_daud ipa_inst ipa_E3 daud_single_msg = some [] := by
  decide

/-- C6, amended: for a DAUD whose affected point code element is present, received from an
endpoint whose protocol variant is M3UA or SUA, the events are exactly one reply per entry
with mask 0, in entry order, each addressed to the querying endpoint in the encoding of its
variant, carrying the routing contexts of that endpoint resolved with no application
server excluded, the entry itself, the text "Response to DAUD", and marked available if
and only if the route table has a route for the 24-bit point code of the entry. Entries
with another mask produce nothing, no other endpoint and no local user is addressed. -/
theorem C6_daud_replies (s7i : osmo_ss7_instance) (asp : osmo_ss7_asp) (xua : xua_msg)
    (ie_aff_pc : xua_msg_part)
    (hie : xua_msg_find_tag xua M3UA_IEI_AFFECTED_PC = some ie_aff_pc)
    (hproto : asp.proto = osmo_ss7_asp_protocol.M3UA
      ∨ asp.proto = osmo_ss7_asp_protocol.SUA) :
    xua_snm_rx_daud s7i asp xua
      = some (((u32_array ie_aff_pc.dat).filter (fun w => decide (aff_pc_mask w = 0))).map
          (fun w =>
            if asp.proto = osmo_ss7_asp_protocol.M3UA then
              xua_event.m3ua_tx_snm_available asp (get_all_rctx_for_asp 32 s7i asp none) [w]
                (some "Response to DAUD") (s7i.route_lookup (aff_pc_pc w))
            else
              xua_event.sua_tx_snm_available asp (get_all_rctx_for_asp 32 s7i asp none) [w]
                none none (some "Response to DAUD") (s7i.route_lookup (aff_pc_pc w)))) := by
  unfold xua_snm_rx_daud
  rw [hie]
  simp only [xua_snm_rx_daud_loop_eq]
  congr 1
  induction (u32_array ie_aff_pc.dat).filter (fun w => decide (aff_pc_mask w = 0)) with
  | nil => simp
  | cons w rest ih =>
      rw [List.flatMap_cons, ih]
      rcases hproto with hp | hp <;> simp [xua_tx_snm_available, hp]

/-- C6, witness: the SUA endpoint E2 queries 100 (mask 0), 100 (mask 2) and 200 (mask 0);
there is a route to 100 only. -/
theorem C6_daud_replies_witness :
    xua_msg_find_tag daud_msg M3UA_IEI_AFFECTED_PC
        = some ⟨0x0012, [0, 0, 0, 100, 2, 0, 0, 100, 0, 0, 0, 200]⟩
      ∧ (scenario_E2.proto = osmo_ss7_asp_protocol.M3UA
          ∨ scenario_E2.proto = osmo_ss7_asp_protocol.SUA)
      ∧ xua_snm_rx_daud scenario_inst scenario_E2 daud_msg
          = some [xua_event.sua_tx_snm_available scenario_E2 [htonl 7, htonl 9] [htonl 100]
                    none none (some "Response to DAUD") true,
                  xua_event.sua_tx_snm_available scenario_E2 [htonl 7, htonl 9] [htonl 200]
                    none none (some "Response to DAUD") false] :=
  ⟨by decide, by decide,
    (C6_daud_replies scenario_inst scenario_E2 daud_msg
      ⟨0x0012, [0, 0, 0, 100, 2, 0, 0, 100, 0, 0, 0, 200]⟩ (by decide) (by decide)).trans
      (by decide)⟩

/-- C7: an inbound DUNA, DAVA or DUPU whose affected point code element is present,
received from an endpoint toward which the local role is not ASP (routed process),
produces no event at all: no local notification and no transmission. -/
theorem C7_role_gate (s7i : osmo_ss7_instance) (asp : osmo_ss7_asp) (as : osmo_ss7_as)
    (xua : xua_msg) (hrole : asp.role ≠ osmo_ss7_asp_role.ASP)
    (hie : (xua_msg_find_tag xua M3UA_IEI_AFFECTED_PC).isSome = true) :
    xua_snm_rx_duna s7i asp as xua = some []
      ∧ xua_snm_rx_dava s7i asp as xua = some []
      ∧ xua_snm_rx_dupu s7i asp as xua = [] := by
  obtain ⟨ie, hie⟩ := Option.isSome_iff_exists.mp hie
  refine ⟨?_, ?_, ?_⟩
  · simp [xua_snm_rx_duna, hie, hrole]
  · simp [xua_snm_rx_dava, hie, hrole]
  · simp [xua_snm_rx_dupu, hrole]

/-- C7, witness: a message received from E2, toward which the local role is SG. -/
theorem C7_role_gate_witness :
    scenario_E2.role ≠ osmo_ss7_asp_role.ASP
      ∧ (xua_msg_find_tag snm_msg M3UA_IEI_AFFECTED_PC).isSome = true
      ∧ xua_snm_rx_duna scenario_inst scenario_E2 scenario_AS1 snm_msg = some []
      ∧ xua_snm_rx_dava scenario_inst scenario_E2 scenario_AS1 snm_msg = some []
      ∧ xua_snm_rx_dupu scenario_inst scenario_E2 scenario_AS1 snm_msg = [] :=
  ⟨by decide, by decide,
    C7_role_gate scenario_inst scenario_E2 scenario_AS1 snm_msg (by decide) (by decide)⟩

/-- C8, counterexample: a DUNA with a subsystem element and the two affected point codes
100 and 200, received in the ASP role from an M3UA endpoint, is not rejected: both point
codes are paused locally and the message is propagated at point code level. -/
theorem C8_counterexample_m3ua_endpoint :
    (xua_msg_find_tag ssn_two_pc_msg SUA_IEI_SSN).isSome = true
      ∧ (xua_msg_find_tag ssn_two_pc_msg M3UA_IEI_AFFECTED_PC).map
          (fun ie => u32_array ie.dat) = some [htonl 100, htonl 200]
      ∧ xua_snm_rx_duna rx_inst asp_role_m3ua_E5 rx_AS3 ssn_two_pc_msg
          = some [xua_event.sccp_scmg_rx_mtp_pause 100, xua_event.sccp_scmg_rx_mtp_pause 200,
              xua_event.m3ua_tx_snm_available scenario_E1 [htonl 7] [htonl 100, htonl 200]
                none false,
              xua_event.sua_tx_snm_available scenario_E2 [htonl 7, htonl 9]
                [htonl 100, htonl 200] none none none false] := by
  decide

/-- C8, amended: a DUNA or DAVA received from an endpoint whose encoding is SUA that
contains a subsystem element together with any number other than one of affected point
codes is rejected as a whole: no local notification and no transmission is emitted. -/
theorem C8_sua_ssn_multiple_pc_rejected (s7i : osmo_ss7_instance) (asp : osmo_ss7_asp)
    (as : osmo_ss7_as) (xua : xua_msg) (ie_aff_pc : xua_msg_part)
    (hproto : asp.proto = osmo_ss7_asp_protocol.SUA)
    (hssn : (xua_msg_find_tag xua SUA_IEI_SSN).isSome = true)
    (hie : xua_msg_find_tag xua M3UA_IEI_AFFECTED_PC = some ie_aff_pc)
    (hnum : (u32_array ie_aff_pc.dat).length ≠ 1) :
    xua_snm_rx_duna s7i asp as xua = some []
      ∧ xua_snm_rx_dava s7i asp as xua = some [] := by
  obtain ⟨ie_ssn, hssn⟩ := Option.isSome_iff_exists.mp hssn
  rw [u32_array_length] at hnum
  constructor
  · simp [xua_snm_rx_duna, hie, hssn, hproto, hnum]
  · simp [xua_snm_rx_dava, hie, hssn, hproto, hnum]

/-- C8, witness: the message with a subsystem element and two affected point codes
received from a SUA endpoint. -/
theorem C8_sua_ssn_multiple_pc_rejected_witness :
    asp_role_sua_E6.proto = osmo_ss7_asp_protocol.SUA
      ∧ (xua_msg_find_tag ssn_two_pc_msg SUA_IEI_SSN).isSome = true
      ∧ xua_msg_find_tag ssn_two_pc_msg M3UA_IEI_AFFECTED_PC
          = some ⟨0x0012, [0, 0, 0, 100, 0, 0, 0, 200]⟩
      ∧ (u32_array [0, 0, 0, 100, 0, 0, 0, 200]).length ≠ 1
      ∧ xua_snm_rx_duna rx_inst asp_role_sua_E6 rx_AS3 ssn_two_pc_msg = some []
      ∧ xua_snm_rx_dava rx_inst asp_role_sua_E6 rx_AS3 ssn_two_pc_msg = some [] :=
  ⟨by decide, by decide, by decide, by decide,
    C8_sua_ssn_multiple_pc_rejected rx_inst asp_role_sua_E6 rx_AS3 ssn_two_pc_msg
      ⟨0x0012, [0, 0, 0, 100, 0, 0, 0, 200]⟩ (by decide) (by decide) (by decide)
      (by decide)⟩

/-- C9: a DUNA or DAVA received in the ASP role whose affected point code element is
present. If the encoding of the endpoint is SUA, a subsystem element is present and there
is exactly one affected point code, the output is that of `sua_snm_ssn_available` for the
acting application server, the low 24 bits of the affected point code, the subsystem
number, the optional multiplicity indicator, the info text and available = false (DUNA) or
true (DAVA), and it contains no MTP-PAUSE or MTP-RESUME primitive. If the encoding is not
SUA or there is no subsystem element, the output is that of `xua_snm_pc_available` on all
the affected point codes present. -/
theorem C9_duna_dava_dispatch (s7i : osmo_ss7_instance) (asp : osmo_ss7_asp)
    (as : osmo_ss7_as) (xua : xua_msg) (ie_aff_pc : xua_msg_part)
    (hrole : asp.role = osmo_ss7_asp_role.ASP)
    (hie : xua_msg_find_tag xua M3UA_IEI_AFFECTED_PC = some ie_aff_pc) :
    (∀ (ie_ssn : xua_msg_part) (w : Nat),
        asp.proto = osmo_ss7_asp_protocol.SUA →
        xua_msg_find_tag xua SUA_IEI_SSN = some ie_ssn →
        u32_array ie_aff_pc.dat = [w] →
          xua_snm_rx_duna s7i asp as xua
              = some (sua_snm_ssn_available s7i as (aff_pc_pc w)
                  (xua_msg_part_get_u32 ie_ssn) (xua_msg_get_u32p xua SUA_IEI_SMI)
                  (xua_msg_get_str xua M3UA_IEI_INFO_STRING) false)
            ∧ xua_snm_rx_dava s7i asp as xua
              = some (sua_snm_ssn_available s7i as (aff_pc_pc w)
                  (xua_msg_part_get_u32 ie_ssn) (xua_msg_get_u32p xua SUA_IEI_SMI)
                  (xua_msg_get_str xua M3UA_IEI_INFO_STRING) true)
            ∧ ∀ (available : Bool),
                ∀ ev ∈ sua_snm_ssn_available s7i as (aff_pc_pc w)
                  (xua_msg_part_get_u32 ie_ssn) (xua_msg_get_u32p xua SUA_IEI_SMI)
                  (xua_msg_get_str xua M3UA_IEI_INFO_STRING) available,
                  ev.is_mtp_pause_resume = false)
      ∧ ((asp.proto ≠ osmo_ss7_asp_protocol.SUA ∨ xua_msg_find_tag xua SUA_IEI_SSN = none) →
          xua_snm_rx_duna s7i asp as xua
              = some (xua_snm_pc_available s7i as (u32_array ie_aff_pc.dat)
                  (xua_msg_get_str xua M3UA_IEI_INFO_STRING) false)
            ∧ xua_snm_rx_dava s7i asp as xua
              = some (xua_snm_pc_available s7i as (u32_array ie_aff_pc.dat)
                  (xua_msg_get_str xua M3UA_IEI_INFO_STRING) true)) := by
  constructor
  · intro ie_ssn w hproto hssn hw
    have hlen : ie_aff_pc.dat.length / 4 = 1 := by
      rw [← u32_array_length, hw]
      rfl
    have hpc : ntohl w &&& 0xffffff = aff_pc_pc w := (pc_mask_arith (ntohl w)).1
    refine ⟨?_, ?_, ?_⟩
    · simp only [xua_snm_rx_duna, hie, hrole, hproto, hssn, hlen, hw]
      simp [hpc]
    · simp only [xua_snm_rx_dava, hie, hrole, hproto, hssn, hlen, hw]
      simp [hpc]
    · intro available ev hev
      rcases sua_snm_ssn_available_mem _ _ _ _ _ _ _ _ hev with ⟨_, h⟩ | ⟨a, _, _, _, h⟩
      · cases available <;> simp [h, xua_event.is_mtp_pause_resume]
      · simp [h, xua_event.is_mtp_pause_resume]
  · intro h
    rcases h with h | h
    · have hd : decide (asp.proto = osmo_ss7_asp_protocol.SUA) = false := by simp [h]
      constructor
      · simp only [xua_snm_rx_duna, hie, hrole, hd]
        simp
      · simp only [xua_snm_rx_dava, hie, hrole, hd]
        simp
    · constructor
      · simp only [xua_snm_rx_duna, hie, hrole, h]
        simp
      · simp only [xua_snm_rx_dava, hie, hrole, h]
        simp

/-- C9, witness: the message with SSN 8 and the one affected point code 100, received in
the ASP role, as DUNA from the SUA endpoint (subsystem level) and as DAVA from the M3UA
endpoint (point code level). -/
theorem C9_duna_dava_dispatch_witness :
    asp_role_sua_E6.role = osmo_ss7_asp_role.ASP
      ∧ asp_role_m3ua_E5.role = osmo_ss7_asp_role.ASP
      ∧ xua_msg_find_tag ssn_one_pc_msg M3UA_IEI_AFFECTED_PC = some ⟨0x0012, [0, 0, 0, 100]⟩
      ∧ xua_snm_rx_duna rx_inst asp_role_sua_E6 rx_AS3 ssn_one_pc_msg
          = some [xua_event.sccp_scmg_rx_ssn_prohibited 100 8 0,
              xua_event.sua_tx_snm_available scenario_E2 [htonl 7, htonl 9] [100] (some 8)
                none none false]
      ∧ xua_snm_rx_dava rx_inst asp_role_m3ua_E5 rx_AS3 ssn_one_pc_msg
          = some [xua_event.sccp_scmg_rx_mtp_resume 100,
              xua_event.m3ua_tx_snm_available scenario_E1 [htonl 7] [htonl 100] none true,
              xua_event.sua_tx_snm_available scenario_E2 [htonl 7, htonl 9] [htonl 100]
                none none none true] :=
  ⟨by decide, by decide, by decide,
    ((C9_duna_dava_dispatch rx_inst asp_role_sua_E6 rx_AS3 ssn_one_pc_msg
        ⟨0x0012, [0, 0, 0, 100]⟩ (by decide) (by decide)).1
      ⟨0x8003, [0, 0, 0, 8]⟩ (htonl 100) (by decide) (by decide) (by decide)).1.trans
      (by decide),
    ((C9_duna_dava_dispatch rx_inst asp_role_m3ua_E5 rx_AS3 ssn_one_pc_msg
        ⟨0x0012, [0, 0, 0, 100]⟩ (by decide) (by decide)).2
      (Or.inl (by decide))).2.trans (by decide)⟩

/-- C10: for every call of `sua_snm_ssn_available`, the local primitives are exactly one
when a local user is attached (none otherwise): subsystem allowed when available, subsystem
prohibited otherwise, for the point code, the subsystem number and the multiplicity
indicator, 0 when the indicator is absent. Every transmission is the SUA availability
message to an endpoint of the instance whose encoding is SUA, that is active, has the SG
role and whose routing contexts resolved with `as` excluded are not empty; it carries
those contexts, the single point code and the subsystem number. No M3UA endpoint is
addressed. -/
theorem C10_ssn_available (s7i : osmo_ss7_instance) (as : osmo_ss7_as) (pc ssn : Nat)
    (smi : Option Nat) (info_str : Option String) (available : Bool) :
    (sua_snm_ssn_available s7i as pc ssn smi info_str available).filter
          xua_event.is_sccp_ind
        = (if s7i.sccp = true then
            [if available then xua_event.sccp_scmg_rx_ssn_allowed pc ssn (smi.getD 0)
             else xua_event.sccp_scmg_rx_ssn_prohibited pc ssn (smi.getD 0)]
          else [])
      ∧ (∀ ev ∈ sua_snm_ssn_available s7i as pc ssn smi info_str available, ∀ asp,
          ev.dest = some asp →
            asp ∈ s7i.asp_list
              ∧ asp.proto = osmo_ss7_asp_protocol.SUA
              ∧ osmo_ss7_asp_active asp = true
              ∧ asp.role = osmo_ss7_asp_role.SG
              ∧ get_all_rctx_for_asp 32 s7i asp (some as) ≠ []
              ∧ ev = xua_event.sua_tx_snm_available asp
                  (get_all_rctx_for_asp 32 s7i asp (some as)) [pc] (some ssn) smi info_str
                  available)
      ∧ (∀ ev ∈ sua_snm_ssn_available s7i as pc ssn smi info_str available, ∀ asp,
          ev.dest = some asp → asp.proto ≠ osmo_ss7_asp_protocol.M3UA) := by
  have main : ∀ ev ∈ sua_snm_ssn_available s7i as pc ssn smi info_str available, ∀ asp,
      ev.dest = some asp →
        asp ∈ s7i.asp_list
          ∧ asp.proto = osmo_ss7_asp_protocol.SUA
          ∧ osmo_ss7_asp_active asp = true
          ∧ asp.role = osmo_ss7_asp_role.SG
          ∧ get_all_rctx_for_asp 32 s7i asp (some as) ≠ []
          ∧ ev = xua_event.sua_tx_snm_available asp
              (get_all_rctx_for_asp 32 s7i asp (some as)) [pc] (some ssn) smi info_str
              available := by
    intro ev hev asp hd
    rcases sua_snm_ssn_available_mem _ _ _ _ _ _ _ _ hev with ⟨_, h⟩ | ⟨a, ha, hok, hp, h⟩
    · cases available <;> simp [h, xua_event.dest] at hd
    · rw [h] at hd
      have e : a = asp := Option.some.inj hd
      subst e
      simp [fanout_ok] at hok
      exact ⟨ha, hp, hok.1.1, hok.1.2, hok.2, h⟩
  refine ⟨?_, main, ?_⟩
  · unfold sua_snm_ssn_available
    rw [List.filter_append]
    have hloop : (sua_snm_ssn_available_asps s7i as pc ssn smi info_str available
        s7i.asp_list).filter xua_event.is_sccp_ind = [] := by
      rw [List.filter_eq_nil_iff]
      intro ev hev
      obtain ⟨a, _, _, _, h⟩ := sua_snm_ssn_available_asps_mem _ _ _ _ _ _ _ _ _ hev
      simp [h, xua_event.is_sccp_ind, xua_event.dest]
    rw [hloop]
    cases smi <;> cases available <;> cases s7i.sccp <;>
      simp [sua_snm_ssn_available_to_sccp, xua_event.is_sccp_ind, xua_event.dest]
  · intro ev hev asp hd
    have := (main ev hev asp hd).2.1
    rw [this]
    decide

/-- C11: a DUPU received in the ASP role from an M3UA or SUA endpoint, with the 32-bit
user/cause field `c` of the element of that encoding. The output is that of `xua_snm_upu`
for the destination point code, user = `c & 0xffff`, cause = `c >> 16` and the info text,
and `(cause << 16) | user = c`. The local primitives are one MTP-STATUS for the destination
point code and the cause if a local user is attached and user is the SCCP service
indicator, and none otherwise. Every transmission is the DUPU message of the encoding of
its endpoint carrying the destination point code, user, cause and the info text. -/
theorem C11_dupu_dispatch (s7i : osmo_ss7_instance) (asp : osmo_ss7_asp) (as : osmo_ss7_as)
    (xua : xua_msg) (c : Nat)
    (hrole : asp.role = osmo_ss7_asp_role.ASP)
    (hc : (asp.proto = osmo_ss7_asp_protocol.M3UA
            ∧ c = xua_msg_get_u32 xua M3UA_IEI_USER_CAUSE)
          ∨ (asp.proto = osmo_ss7_asp_protocol.SUA
            ∧ c = xua_msg_get_u32 xua SUA_IEI_USER_CAUSE)) :
    xua_snm_rx_dupu s7i asp as xua
        = xua_snm_upu s7i as (xua_msg_get_u32 xua SUA_IEI_AFFECTED_PC) (c &&& 0xffff)
            (c >>> 16) (xua_msg_get_str xua SUA_IEI_INFO_STRING)
      ∧ ((c >>> 16) <<< 16) ||| (c &&& 0xffff) = c
      ∧ (xua_snm_rx_dupu s7i asp as xua).filter xua_event.is_sccp_ind
          = (if s7i.sccp = true ∧ c &&& 0xffff = MTP_SI_SCCP then
              [xua_event.sccp_scmg_rx_mtp_status
                (xua_msg_get_u32 xua SUA_IEI_AFFECTED_PC) (c >>> 16)]
            else [])
      ∧ (∀ ev ∈ xua_snm_rx_dupu s7i asp as xua, ∀ a, ev.dest = some a →
          ev = xua_event.m3ua_tx_dupu a (get_all_rctx_for_asp 32 s7i a (some as))
                (xua_msg_get_u32 xua SUA_IEI_AFFECTED_PC) (c &&& 0xffff) (c >>> 16)
                (xua_msg_get_str xua SUA_IEI_INFO_STRING)
            ∨ ev = xua_event.sua_tx_dupu a (get_all_rctx_for_asp 32 s7i a (some as))
                (xua_msg_get_u32 xua SUA_IEI_AFFECTED_PC) (c &&& 0xffff) (c >>> 16)
                (xua_msg_get_str xua SUA_IEI_INFO_STRING)) := by
  have hlt : c < 4294967296 := by
    rcases hc with ⟨_, h⟩ | ⟨_, h⟩ <;> rw [h] <;> exact xua_msg_get_u32_lt _ _
  obtain ⟨s1, s2, s3⟩ := cause_user_split c hlt
  have hrx : xua_snm_rx_dupu s7i asp as xua
      = xua_snm_upu s7i as (xua_msg_get_u32 xua SUA_IEI_AFFECTED_PC) (c &&& 0xffff)
          (c >>> 16) (xua_msg_get_str xua SUA_IEI_INFO_STRING) := by
    rcases hc with ⟨hp, h⟩ | ⟨hp, h⟩
    · simp only [xua_snm_rx_dupu, hrole, hp, ← h, s1, s2]
      simp
    · simp only [xua_snm_rx_dupu, hrole, hp, ← h, s1, s2]
      simp
  refine ⟨hrx, s3, ?_, ?_⟩
  · rw [hrx]
    unfold xua_snm_upu
    rw [List.filter_append, xua_snm_upu_asps_eq]
    have hloop : ((s7i.asp_list.filter (fanout_ok s7i as)).flatMap (fun asp =>
        xua_tx_upu asp (get_all_rctx_for_asp 32 s7i asp (some as))
          (xua_msg_get_u32 xua SUA_IEI_AFFECTED_PC) (c &&& 0xffff) (c >>> 16)
          (xua_msg_get_str xua SUA_IEI_INFO_STRING))).filter xua_event.is_sccp_ind = [] := by
      rw [List.filter_eq_nil_iff]
      intro ev hev
      obtain ⟨a, _, ha⟩ := List.mem_flatMap.mp hev
      have := (xua_tx_upu_mem _ _ _ _ _ _ _ ha).1
      simp [xua_event.is_sccp_ind, this]
    rw [hloop, List.append_nil]
    by_cases h1 : s7i.sccp = true
    · by_cases h2 : c &&& 0xffff = MTP_SI_SCCP
      · simp [h1, h2, xua_event.is_sccp_ind, xua_event.dest]
      · simp [h1, h2]
    · simp [h1]
  · intro ev hev a hd
    rw [hrx] at hev
    unfold xua_snm_upu at hev
    rcases List.mem_append.mp hev with h | h
    · split at h
      · simp at h
        simp [h, xua_event.dest] at hd
      · simp at h
    · rw [xua_snm_upu_asps_eq] at h
      obtain ⟨b, _, hb⟩ := List.mem_flatMap.mp h
      have hbd := (xua_tx_upu_mem _ _ _ _ _ _ _ hb).1
      rw [hbd] at hd
      have e : b = a := Option.some.inj hd
      subst e
      unfold xua_tx_upu at hb
      split at hb
      · left; simpa using hb
      · right; simpa using hb
      · simp at hb

/-- C11, witness: a DUPU with user/cause word 0x00010003 (cause 1, user 3 = SCCP) for
point code 100 received in the ASP role from the M3UA endpoint. -/
theorem C11_dupu_dispatch_witness :
    asp_role_m3ua_E5.role = osmo_ss7_asp_role.ASP
      ∧ asp_role_m3ua_E5.proto = osmo_ss7_asp_protocol.M3UA
      ∧ xua_msg_get_u32 snm_msg M3UA_IEI_USER_CAUSE = 0x00010003
      ∧ xua_snm_rx_dupu rx_inst asp_role_m3ua_E5 rx_AS3 snm_msg
          = [xua_event.sccp_scmg_rx_mtp_status 100 1,
             xua_event.m3ua_tx_dupu scenario_E1 [htonl 7] 100 3 1 (some "test"),
             xua_event.sua_tx_dupu scenario_E2 [htonl 7, htonl 9] 100 3 1 (some "test")] :=
  ⟨by decide, by decide, by decide,
    (C11_dupu_dispatch rx_inst asp_role_m3ua_E5 rx_AS3 snm_msg 0x00010003 (by decide)
      (Or.inl ⟨by decide, by decide⟩)).1.trans (by decide)⟩

/-- C12, counterexample: `xua_snm_scon` called with the concerned destination 200 and the
level 2 in the spec scenario sends one SUA congestion message to E2, and that message has
no concerned destination in it. -/
theorem C12_counterexample_sua_no_concerned_dpc :
    xua_snm_scon scenario_inst scenario_AS1 scenario_aff_pc (some 200) (some 2)
          (some "test")
        = [xua_event.sua_tx_snm_congestion scenario_E2 [htonl 9] scenario_aff_pc none 2
            (some "test")]
      ∧ (xua_snm_scon scenario_inst scenario_AS1 scenario_aff_pc (some 200) (some 2)
          (some "test")).map xua_event.concerned_dpc = [none] := by
  decide

/-- C12, amended: every event of `xua_snm_scon` is a transmission to an endpoint of the
instance that is active, has the SG role and non-empty resolved contexts; it carries
those contexts, the affected point code list unchanged and the info text. To an M3UA
endpoint it also carries the optional concerned destination and the optional congestion
level as given. To a SUA endpoint it carries the congestion level by value, 0 when the
level is absent, and no concerned destination. -/
theorem C12_scon_transmissions (s7i : osmo_ss7_instance) (as : osmo_ss7_as)
    (aff_pc : List Nat) (concerned_dpc cong_level : Option Nat)
    (info_string : Option String) :
    ∀ ev ∈ xua_snm_scon s7i as aff_pc concerned_dpc cong_level info_string,
      ∃ asp ∈ s7i.asp_list,
        osmo_ss7_asp_active asp = true ∧ asp.role = osmo_ss7_asp_role.SG
          ∧ get_all_rctx_for_asp 32 s7i asp (some as) ≠ []
          ∧ ((asp.proto = osmo_ss7_asp_protocol.M3UA
              ∧ ev = xua_event.m3ua_tx_snm_congestion asp
                  (get_all_rctx_for_asp 32 s7i asp (some as)) aff_pc concerned_dpc
                  cong_level info_string)
            ∨ (asp.proto = osmo_ss7_asp_protocol.SUA
              ∧ ev = xua_event.sua_tx_snm_congestion asp
                  (get_all_rctx_for_asp 32 s7i asp (some as)) aff_pc none
                  (cong_level.getD 0) info_string)) := by
  intro ev hev
  obtain ⟨a, ha, hok, hsh⟩ := xua_snm_scon_mem _ _ _ _ _ _ _ hev
  simp [fanout_ok] at hok
  exact ⟨a, ha, hok.1.1, hok.1.2, hok.2, hsh⟩

/-- C12, witness: in the instance with AS3, a congestion report for AS3 with concerned
destination 200 and level 2 reaches the M3UA endpoint E1 with both values in it. -/
theorem C12_scon_transmissions_witness :
    xua_event.m3ua_tx_snm_congestion scenario_E1 [htonl 7] scenario_aff_pc (some 200)
          (some 2) (some "test")
        ∈ xua_snm_scon rx_inst rx_AS3 scenario_aff_pc (some 200) (some 2) (some "test")
      ∧ ∃ asp ∈ rx_inst.asp_list,
          osmo_ss7_asp_active asp = true ∧ asp.role = osmo_ss7_asp_role.SG
            ∧ get_all_rctx_for_asp 32 rx_inst asp (some rx_AS3) ≠ []
            ∧ ((asp.proto = osmo_ss7_asp_protocol.M3UA
                ∧ xua_event.m3ua_tx_snm_congestion scenario_E1 [htonl 7] scenario_aff_pc
                    (some 200) (some 2) (some "test")
                  = xua_event.m3ua_tx_snm_congestion asp
                    (get_all_rctx_for_asp 32 rx_inst asp (some rx_AS3)) scenario_aff_pc
                    (some 200) (some 2) (some "test"))
              ∨ (asp.proto = osmo_ss7_asp_protocol.SUA
                ∧ xua_event.m3ua_tx_snm_congestion scenario_E1 [htonl 7] scenario_aff_pc
                    (some 200) (some 2) (some "test")
                  = xua_event.sua_tx_snm_congestion asp
                    (get_all_rctx_for_asp 32 rx_inst asp (some rx_AS3)) scenario_aff_pc none
                    ((some 2 : Option Nat).getD 0) (some "test"))) :=
  ⟨by decide,
    C12_scon_transmissions rx_inst rx_AS3 scenario_aff_pc (some 200) (some 2) (some "test")
      _ (by decide)⟩

/-- C13: an SCON whose affected point code element is present is dispatched whatever the
role, the state and the protocol of the sending endpoint. The output is that of
`xua_snm_scon` for the acting application server, the affected point codes of the
element, the optional concerned destination, the optional congestion level (the low byte
of the congestion indications word) and the info text; it contains no primitive of the
local user and does not depend on the sending endpoint. -/
theorem C13_rx_scon_dispatch (s7i : osmo_ss7_instance) (asp : osmo_ss7_asp)
    (as : osmo_ss7_as) (xua : xua_msg) (ie_aff_pc : xua_msg_part)
    (hie : xua_msg_find_tag xua M3UA_IEI_AFFECTED_PC = some ie_aff_pc) :
    xua_snm_rx_scon s7i asp as xua
        = some (xua_snm_scon s7i as (u32_array ie_aff_pc.dat)
            (xua_msg_get_u32p xua M3UA_IEI_CONC_DEST)
            ((xua_msg_get_u32p xua M3UA_IEI_CONG_IND).map (fun l => l % 256))
            (xua_msg_get_str xua M3UA_IEI_INFO_STRING))
      ∧ (∀ ev ∈ xua_snm_scon s7i as (u32_array ie_aff_pc.dat)
            (xua_msg_get_u32p xua M3UA_IEI_CONC_DEST)
            ((xua_msg_get_u32p xua M3UA_IEI_CONG_IND).map (fun l => l % 256))
            (xua_msg_get_str xua M3UA_IEI_INFO_STRING),
          ev.is_sccp_ind = false ∧ ev.is_tx = true)
      ∧ (∀ other : osmo_ss7_asp,
          xua_snm_rx_scon s7i other as xua = xua_snm_rx_scon s7i asp as xua) := by
  refine ⟨?_, ?_, ?_⟩
  · simp [xua_snm_rx_scon, hie]
  · intro ev hev
    obtain ⟨a, _, _, h | h⟩ := xua_snm_scon_mem _ _ _ _ _ _ _ hev
    · simp [h.2, xua_event.is_sccp_ind, xua_event.is_tx, xua_event.dest]
    · simp [h.2, xua_event.is_sccp_ind, xua_event.is_tx, xua_event.dest]
  · intro other
    simp [xua_snm_rx_scon]

/-- C13, witness: the SCON message received from the M3UA endpoint toward which the local
role is ASP and from E2, toward which the local role is SG, gives the same fan-out. -/
theorem C13_rx_scon_dispatch_witness :
    xua_msg_find_tag scon_msg M3UA_IEI_AFFECTED_PC = some ⟨0x0012, [0, 0, 0, 100]⟩
      ∧ xua_snm_rx_scon rx_inst asp_role_m3ua_E5 rx_AS3 scon_msg
          = some [xua_event.m3ua_tx_snm_congestion scenario_E1 [htonl 7] [htonl 100]
                    (some 200) (some 2) (some "test"),
                  xua_event.sua_tx_snm_congestion scenario_E2 [htonl 7, htonl 9] [htonl 100]
                    none 2 (some "test")]
      ∧ xua_snm_rx_scon rx_inst scenario_E2 rx_AS3 scon_msg
          = xua_snm_rx_scon rx_inst asp_role_m3ua_E5 rx_AS3 scon_msg :=
  ⟨by decide,
    (C13_rx_scon_dispatch rx_inst asp_role_m3ua_E5 rx_AS3 scon_msg ⟨0x0012, [0, 0, 0, 100]⟩
      (by decide)).1.trans (by decide),
    (C13_rx_scon_dispatch rx_inst asp_role_m3ua_E5 rx_AS3 scon_msg ⟨0x0012, [0, 0, 0, 100]⟩
      (by decide)).2.2 scenario_E2⟩

/-- C14, counterexample: E1 is a member of one application server only, which has no
routing context; its resolved context list is empty, and still `xua_snm_rx_daud` sends it
a reply, with an empty routing context list. -/
theorem C14_counterexample_daud_empty_rctx :
    get_all_rctx_for_asp 32 zero_ctx_inst scenario_E1 none = []
      ∧ xua_snm_rx_daud zero_ctx_inst scenario_E1 daud_single_msg
          = some [xua_event.m3ua_tx_snm_available scenario_E1 [] [htonl 100]
              (some "Response to DAUD") true] := by
  decide

/-- C14, amended: in the four propagators (`xua_snm_pc_available`,
`sua_snm_ssn_available`, `xua_snm_upu`, `xua_snm_scon`) no transmission carries an empty
routing context list: a transmission to an endpoint carries the contexts resolved for
that endpoint with `as` excluded, and they are not empty. The replies of
`xua_snm_rx_daud` are addressed to the querying endpoint and carry its contexts resolved
with nothing excluded, whether or not that list is empty. -/
theorem C14_empty_rctx_skipped_in_propagators (s7i : osmo_ss7_instance) (as : osmo_ss7_as)
    (aff_pc : List Nat) (info_str : Option String) (available : Bool)
    (pc ssn : Nat) (smi : Option Nat) (dpc user cause : Nat)
    (concerned_dpc cong_level : Option Nat) (asp : osmo_ss7_asp) (xua : xua_msg) :
    (∀ ev ∈ xua_snm_pc_available s7i as aff_pc info_str available,
        ev.rctx ≠ some []
          ∧ ∀ a, ev.dest = some a →
              get_all_rctx_for_asp 32 s7i a (some as) ≠ []
                ∧ ev.rctx = some (get_all_rctx_for_asp 32 s7i a (some as)))
    ∧ (∀ ev ∈ sua_snm_ssn_available s7i as pc ssn smi info_str available,
        ev.rctx ≠ some []
          ∧ ∀ a, ev.dest = some a →
              get_all_rctx_for_asp 32 s7i a (some as) ≠ []
                ∧ ev.rctx = some (get_all_rctx_for_asp 32 s7i a (some as)))
    ∧ (∀ ev ∈ xua_snm_upu s7i as dpc user cause info_str,
        ev.rctx ≠ some []
          ∧ ∀ a, ev.dest = some a →
              get_all_rctx_for_asp 32 s7i a (some as) ≠ []
                ∧ ev.rctx = some (get_all_rctx_for_asp 32 s7i a (some as)))
    ∧ (∀ ev ∈ xua_snm_scon s7i as aff_pc concerned_dpc cong_level info_str,
        ev.rctx ≠ some []
          ∧ ∀ a, ev.dest = some a →
              get_all_rctx_for_asp 32 s7i a (some as) ≠ []
                ∧ ev.rctx = some (get_all_rctx_for_asp 32 s7i a (some as)))
    ∧ (∀ evs, xua_snm_rx_daud s7i asp xua = some evs →
        ∀ ev ∈ evs, ev.dest = some asp
          ∧ ev.rctx = some (get_all_rctx_for_asp 32 s7i asp none)) := by
  have loc : ∀ ev : xua_event, ev.dest = none → ev.rctx = none →
      ev.rctx ≠ some []
        ∧ ∀ a, ev.dest = some a →
            get_all_rctx_for_asp 32 s7i a (some as) ≠ []
              ∧ ev.rctx = some (get_all_rctx_for_asp 32 s7i a (some as)) := by
    intro ev h1 h2
    rw [h1, h2]
    simp
  refine ⟨?_, ?_, ?_, ?_, ?_⟩
  · intro ev hev
    unfold xua_snm_pc_available at hev
    rcases List.mem_append.mp hev with h | h
    · split at h
      · obtain ⟨p, hp⟩ := xua_snm_pc_available_to_sccp_mem _ _ _ h
        apply loc <;> cases available <;> simp [hp, xua_event.dest, xua_event.rctx]
      · simp at h
    · exact rctx_nonempty_of_fanout _ _ _ _ (xua_snm_pc_available_asps_mem _ _ _ _ _ _ _ h)
  · intro ev hev
    rcases sua_snm_ssn_available_mem _ _ _ _ _ _ _ _ hev with ⟨_, h⟩ | ⟨a, ha, hok, _, h⟩
    · apply loc <;> cases available <;> simp [h, xua_event.dest, xua_event.rctx]
    · exact rctx_nonempty_of_fanout s7i as s7i.asp_list ev
        ⟨a, ha, hok, by simp [h, xua_event.dest], by simp [h, xua_event.rctx]⟩
  · intro ev hev
    unfold xua_snm_upu at hev
    rcases List.mem_append.mp hev with h | h
    · split at h
      · simp at h
        apply loc <;> simp [h, xua_event.dest, xua_event.rctx]
      · simp at h
    · exact rctx_nonempty_of_fanout _ _ _ _ (xua_snm_upu_asps_mem _ _ _ _ _ _ _ _ h)
  · intro ev hev
    unfold xua_snm_scon at hev
    exact rctx_nonempty_of_fanout _ _ _ _ (xua_snm_scon_asps_mem _ _ _ _ _ _ _ _ hev)
  · intro evs hevs ev hev
    unfold xua_snm_rx_daud at hevs
    split at hevs
    · simp at hevs
    · simp only [Option.some.injEq] at hevs
      subst hevs
      exact xua_snm_rx_daud_loop_mem _ _ _ _ _ hev

/-- C15: `xua_snm_pc_available` keeps no state between calls. The function is run as a
step on its memory (the configuration and the cells of its uninitialised local array
`rctx`), and the second of two calls in a row runs on the memory the first one left. The
second call emits exactly the events of the first; the first call leaves the
configuration as it was; the events do not depend on what the array held at the call;
the output of the two calls is the output of one call repeated, with every event exactly
twice as often, so no duplicate is suppressed. In the spec scenario, started on an array
of stale cells, the first call does overwrite the array (cell 0 then holds the context 9
in network byte order), and the two calls with available = true give the local primitive
and the message to E2 twice. -/
theorem C15_pc_available_repeatable (st : snm_state) (as : osmo_ss7_as)
    (aff_pc : List Nat) (info_str : Option String) (available : Bool) :
    (xua_snm_pc_available_st (xua_snm_pc_available_st st as aff_pc info_str available).2
          as aff_pc info_str available).1
        = (xua_snm_pc_available_st st as aff_pc info_str available).1
      ∧ (xua_snm_pc_available_st st as aff_pc info_str available).2.s7i = st.s7i
      ∧ (∀ stale : Nat → Nat,
          (xua_snm_pc_available_st ⟨st.s7i, stale⟩ as aff_pc info_str available).1
            = (xua_snm_pc_available_st st as aff_pc info_str available).1)
      ∧ (xua_snm_pc_available_st_twice st as aff_pc info_str available).1
          = (xua_snm_pc_available_st st as aff_pc info_str available).1
            ++ (xua_snm_pc_available_st st as aff_pc info_str available).1
      ∧ (∀ ev : xua_event,
          (xua_snm_pc_available_st_twice st as aff_pc info_str available).1.count ev
            = 2 * (xua_snm_pc_available_st st as aff_pc info_str available).1.count ev)
      ∧ (xua_snm_pc_available_st st as aff_pc info_str available).1
          = xua_snm_pc_available st.s7i as aff_pc info_str available
      ∧ scenario_state.rctx 0 = 0xdeadbeef
      ∧ (xua_snm_pc_available_st scenario_state scenario_AS1 scenario_aff_pc (some "test")
          true).2.rctx 0 = htonl 9
      ∧ (xua_snm_pc_available_st_twice scenario_state scenario_AS1 scenario_aff_pc
            (some "test") true).1
          = [xua_event.sccp_scmg_rx_mtp_resume 100,
             xua_event.sua_tx_snm_available scenario_E2 [htonl 9] scenario_aff_pc none none
               (some "test") true,
             xua_event.sccp_scmg_rx_mtp_resume 100,
             xua_event.sua_tx_snm_available scenario_E2 [htonl 9] scenario_aff_pc none none
               (some "test") true] := by
  have hcfg : (xua_snm_pc_available_st st as aff_pc info_str available).2.s7i = st.s7i := rfl
  have hsecond : (xua_snm_pc_available_st
      (xua_snm_pc_available_st st as aff_pc info_str available).2
        as aff_pc info_str available).1
      = (xua_snm_pc_available_st st as aff_pc info_str available).1 := by
    rw [xua_snm_pc_available_st_events, xua_snm_pc_available_st_events, hcfg]
  have htwice : (xua_snm_pc_available_st_twice st as aff_pc info_str available).1
      = (xua_snm_pc_available_st st as aff_pc info_str available).1
        ++ (xua_snm_pc_available_st st as aff_pc info_str available).1 := by
    simp only [xua_snm_pc_available_st_twice, hsecond]
  refine ⟨hsecond, hcfg, ?_, htwice, ?_, xua_snm_pc_available_st_events _ _ _ _ _,
    by decide, by decide, by decide⟩
  · intro stale
    rw [xua_snm_pc_available_st_events, xua_snm_pc_available_st_events]
  · intro ev
    rw [htwice, List.count_append]
    omega

/-- C16: for an affected point code entry with point code `pc` (low 24 bits) and mask `m`,
`1 <= m <= 24`, the expansion loop of `xua_snm_pc_available_to_sccp` ends (its bound
`pc | maskbits` is below the largest 32-bit value, so the counter never wraps) and emits
exactly `2 ^ m` local primitives, MTP-RESUME when available and MTP-PAUSE otherwise, every
one of them carrying the point code `pc` as received. -/
theorem C16_mask_expansion_count (w : Nat) (available : Bool)
    (h1 : 1 ≤ aff_pc_mask w) (h2 : aff_pc_mask w ≤ 24) :
    xua_snm_pc_available_to_sccp [w] available
        = List.replicate (2 ^ aff_pc_mask w)
            (if available then xua_event.sccp_scmg_rx_mtp_resume (aff_pc_pc w)
             else xua_event.sccp_scmg_rx_mtp_pause (aff_pc_pc w))
      ∧ (aff_pc_pc w ||| maskbits (aff_pc_mask w)) < 4294967295
      ∧ (xua_snm_pc_available_to_sccp [w] available).length = 2 ^ aff_pc_mask w := by
  have hpc : ntohl w &&& 0xffffff = aff_pc_pc w := (pc_mask_arith (ntohl w)).1
  have hmask : (ntohl w >>> 24) % 256 = aff_pc_mask w := (pc_mask_arith (ntohl w)).2
  have hlt : aff_pc_pc w < 2 ^ 32 := by
    unfold aff_pc_pc
    omega
  have hne : ¬ aff_pc_mask w = 0 := by omega
  have hsize := loop_range_size (aff_pc_pc w) (aff_pc_mask w) hlt (by omega)
  have hmain : xua_snm_pc_available_to_sccp [w] available
      = List.replicate (2 ^ aff_pc_mask w)
          (if available then xua_event.sccp_scmg_rx_mtp_resume (aff_pc_pc w)
           else xua_event.sccp_scmg_rx_mtp_pause (aff_pc_pc w)) := by
    rw [xua_snm_pc_available_to_sccp, xua_snm_pc_available_to_sccp]
    simp only [hpc, hmask, hne, if_false, List.append_nil]
    exact xua_snm_pc_available_to_sccp_loop_eq _ _ _ _ _ hsize
  refine ⟨hmain, ?_, ?_⟩
  · have := hi_lt_uint32_max (ntohl w) (aff_pc_mask w)
    rw [hpc] at this
    exact this
  · rw [hmain, List.length_replicate]

/-- C16, witness: the entry (pc = 100, mask = 2) gives four MTP-RESUME primitives for
point code 100. -/
theorem C16_mask_expansion_count_witness :
    1 ≤ aff_pc_mask (htonl 0x02000064) ∧ aff_pc_mask (htonl 0x02000064) ≤ 24
      ∧ xua_snm_pc_available_to_sccp [htonl 0x02000064] true
          = List.replicate 4 (xua_event.sccp_scmg_rx_mtp_resume 100) :=
  ⟨by decide, by decide,
    (C16_mask_expansion_count (htonl 0x02000064) true (by decide) (by decide)).1.trans
      (by decide)⟩

/-- C17: `xua_snm_rx_dava` and `xua_snm_rx_duna` are the same function up to the
availability flag. For every endpoint, acting application server and message the output
of DAVA is the output of DUNA with every event flipped from unavailable or prohibited to
available or allowed; every event of DUNA reports unavailable and every event of DAVA
reports available. The two handlers abort on exactly the same messages (the affected
point code element is missing) and produce nothing on exactly the same messages. -/
theorem C17_dava_is_duna_flipped (s7i : osmo_ss7_instance) (asp : osmo_ss7_asp)
    (as : osmo_ss7_as) (xua : xua_msg) :
    xua_snm_rx_dava s7i asp as xua
        = (xua_snm_rx_duna s7i asp as xua).map (List.map xua_event.make_available)
      ∧ (∀ evs, xua_snm_rx_duna s7i asp as xua = some evs →
          ∀ ev ∈ evs, ev.availability = some false)
      ∧ (∀ evs, xua_snm_rx_dava s7i asp as xua = some evs →
          ∀ ev ∈ evs, ev.availability = some true)
      ∧ (xua_snm_rx_dava s7i asp as xua = none ↔ xua_snm_rx_duna s7i asp as xua = none)
      ∧ (xua_snm_rx_dava s7i asp as xua = some [] ↔ xua_snm_rx_duna s7i asp as xua = some [])
    := by
  have hflip : xua_snm_rx_dava s7i asp as xua
      = (xua_snm_rx_duna s7i asp as xua).map (List.map xua_event.make_available) := by
    unfold xua_snm_rx_dava xua_snm_rx_duna
    cases hie : xua_msg_find_tag xua M3UA_IEI_AFFECTED_PC with
    | none => simp
    | some ie =>
        simp only
        by_cases hr : asp.role = osmo_ss7_asp_role.ASP
        · simp only [hr, ne_eq, not_true_eq_false, if_false]
          cases hp : decide (asp.proto = osmo_ss7_asp_protocol.SUA) <;>
            cases hs : xua_msg_find_tag xua SUA_IEI_SSN
          · simp [(xua_snm_pc_available_flip _ _ _ _).1]
          · simp [(xua_snm_pc_available_flip _ _ _ _).1]
          · simp [(xua_snm_pc_available_flip _ _ _ _).1]
          · by_cases hn : ie.dat.length / 4 = 1
            · simp [hn, (sua_snm_ssn_available_flip _ _ _ _ _ _).1]
            · simp [hn]
        · simp [hr]
  have hduna : ∀ evs, xua_snm_rx_duna s7i asp as xua = some evs →
      ∀ ev ∈ evs, ev.availability = some false := by
    intro evs h ev hev
    unfold xua_snm_rx_duna at h
    cases hie : xua_msg_find_tag xua M3UA_IEI_AFFECTED_PC with
    | none => simp [hie] at h
    | some ie =>
        simp only [hie] at h
        by_cases hr : asp.role = osmo_ss7_asp_role.ASP
        · simp only [hr, ne_eq, not_true_eq_false, if_false] at h
          have hpc : ∀ l, some (xua_snm_pc_available s7i as (u32_array ie.dat) l false)
              = some evs → ev.availability = some false := by
            intro l hl
            injection hl with hl
            subst hl
            exact (xua_snm_pc_available_flip _ _ _ _).2 false ev hev
          cases hp : decide (asp.proto = osmo_ss7_asp_protocol.SUA) <;>
            cases hs : xua_msg_find_tag xua SUA_IEI_SSN <;> simp only [hp, hs] at h
          · exact hpc _ h
          · exact hpc _ h
          · exact hpc _ h
          · by_cases hn : ie.dat.length / 4 = 1
            · simp only [hn, ne_eq, not_true_eq_false, if_false] at h
              injection h with h
              subst h
              exact (sua_snm_ssn_available_flip _ _ _ _ _ _).2 false ev hev
            · simp only [hn, ne_eq, not_false_eq_true, if_true] at h
              injection h with h
              subst h
              simp at hev
        · simp only [hr, ne_eq, not_false_eq_true, if_true] at h
          injection h with h
          subst h
          simp at hev
  have hdava : ∀ evs, xua_snm_rx_dava s7i asp as xua = some evs →
      ∀ ev ∈ evs, ev.availability = some true := by
    intro evs h ev hev
    unfold xua_snm_rx_dava at h
    cases hie : xua_msg_find_tag xua M3UA_IEI_AFFECTED_PC with
    | none => simp [hie] at h
    | some ie =>
        simp only [hie] at h
        by_cases hr : asp.role = osmo_ss7_asp_role.ASP
        · simp only [hr, ne_eq, not_true_eq_false, if_false] at h
          have hpc : ∀ l, some (xua_snm_pc_available s7i as (u32_array ie.dat) l true)
              = some evs → ev.availability = some true := by
            intro l hl
            injection hl with hl
            subst hl
            exact (xua_snm_pc_available_flip _ _ _ _).2 true ev hev
          cases hp : decide (asp.proto = osmo_ss7_asp_protocol.SUA) <;>
            cases hs : xua_msg_find_tag xua SUA_IEI_SSN <;> simp only [hp, hs] at h
          · exact hpc _ h
          · exact hpc _ h
          · exact hpc _ h
          · by_cases hn : ie.dat.length / 4 = 1
            · simp only [hn, ne_eq, not_true_eq_false, if_false] at h
              injection h with h
              subst h
              exact (sua_snm_ssn_available_flip _ _ _ _ _ _).2 true ev hev
            · simp only [hn, ne_eq, not_false_eq_true, if_true] at h
              injection h with h
              subst h
              simp at hev
        · simp only [hr, ne_eq, not_false_eq_true, if_true] at h
          injection h with h
          subst h
          simp at hev
  refine ⟨hflip, hduna, hdava, ?_, ?_⟩
  · rw [hflip]
    cases xua_snm_rx_duna s7i asp as xua <;> simp
  · rw [hflip]
    cases xua_snm_rx_duna s7i asp as xua <;> simp

end XuaSnm
